import Mathlib

/-!
Verification of the parallel-series aligner of `backend/fetch_weather_data.py`
(`process_geosphere_data` and `process_data_for_frontend`).

The payloads handled by the two functions are parsed JSON values; we embed
them as the inductive type `JSON`.  Numbers are embedded as rationals: the
two functions perform no arithmetic on them (values are passed through
unchanged), so the exact numeric representation is immaterial.

Python raises exceptions at ill-typed accesses; the embedding makes every
fallible access return `Except PyErr`, with the same error kind at the same
place as the Python runtime would raise.  The call `datetime.now(...)` is
modelled by an explicit `now : String` argument.
-/

/-- A parsed JSON value, as returned by `response.json()`. -/
inductive JSON where
  | null : JSON
  | bool : Bool → JSON
  | num : Rat → JSON
  | str : String → JSON
  | arr : List JSON → JSON
  | obj : List (String × JSON) → JSON

/-- The Python exception kinds that the modelled operations can raise. -/
inductive PyErr where
  | attributeError : PyErr
  | typeError : PyErr
  | keyError : PyErr
  | indexError : PyErr
deriving DecidableEq

/-- First-match association lookup: the semantics of key lookup in a Python
dict built from parsed JSON (keys are unique in such dicts). -/
def alookup (k : String) : List (String × JSON) → Option JSON
  | [] => none
  | (k2, v) :: rest => if k2 = k then some v else alookup k rest

/-- Python truthiness, as used by the `if not data` guards. -/
def JSON.isFalsy : JSON → Bool
  | .null => true
  | .bool b => !b
  | .num q => q == 0
  | .str s => s == ""
  | .arr xs => xs.isEmpty
  | .obj fs => fs.isEmpty

/-- Python `v.get(key, default)`.  Only dicts have a `get` method; any other
receiver raises `AttributeError`. -/
def JSON.get : JSON → String → JSON → Except PyErr JSON
  | .obj fs, k, dflt => .ok ((alookup k fs).getD dflt)
  | _, _, _ => .error .attributeError

/-- Python `v[key]` with a string key. -/
def JSON.getItemStr : JSON → String → Except PyErr JSON
  | .obj fs, k =>
    match alookup k fs with
    | some v => .ok v
    | none => .error .keyError
  | _, _ => .error .typeError

/-- Python `v[i]` with a nonnegative integer index.  Indexing a string
yields a one-character string; indexing a dict with an integer key raises
`KeyError` because JSON dicts only have string keys. -/
def JSON.getItemNat : JSON → Nat → Except PyErr JSON
  | .arr xs, i =>
    match xs.get? i with
    | some v => .ok v
    | none => .error .indexError
  | .str s, i =>
    match s.toList.get? i with
    | some c => .ok (.str (String.singleton c))
    | none => .error .indexError
  | .obj _, _ => .error .keyError
  | _, _ => .error .typeError

/-- Python `len(v)`. -/
def pyLen : JSON → Except PyErr Nat
  | .arr xs => .ok xs.length
  | .str s => .ok s.length
  | .obj fs => .ok fs.length
  | _ => .error .typeError

/-- Substring test on character lists, for `key in someString`. -/
def charsContain (sub : List Char) : List Char → Bool
  | [] => sub.isEmpty
  | c :: rest => List.isPrefixOf sub (c :: rest) || charsContain sub rest

/-- Python `key in v` for a string key. -/
def pyContains (v : JSON) (k : String) : Except PyErr Bool :=
  match v with
  | .obj fs => .ok (alookup k fs).isSome
  | .arr xs => .ok (xs.any fun x => match x with | .str s => s == k | _ => false)
  | .str s => .ok (charsContain k.toList s.toList)
  | _ => .error .typeError

/-- Python iteration over a value, as in `enumerate(timestamps)`. -/
def iterJSON : JSON → Except PyErr (List JSON)
  | .arr xs => .ok xs
  | .str s => .ok (s.toList.map fun c => .str (String.singleton c))
  | .obj fs => .ok (fs.map fun p => .str p.1)
  | _ => .error .typeError

/-! ## process_geosphere_data (lines 39-92) -/

/-- The guarded positional access `xs[i] if i < len(xs) else None` used on
lines 72-77.  Note that `len(xs)` is evaluated first, so a non-sized value
raises `TypeError` even when the index would be out of range. -/
def guardedAt (v : JSON) (i : Nat) : Except PyErr JSON := do
  let n ← pyLen v
  if i < n then v.getItemNat i else pure JSON.null

/-- The expression `data["features"][0]["properties"]["parameters"]`
(line 57). -/
def featuresPath (data : JSON) : Except PyErr JSON := do
  let f ← data.getItemStr "features"
  let f0 ← f.getItemNat 0
  let props ← f0.getItemStr "properties"
  props.getItemStr "parameters"

/-- Lines 56-59: the try/except around the features path.  The except
clause catches exactly `KeyError`, `IndexError` and `TypeError`, and
`featuresPath` can produce no other error kind, so every failure of the
path degrades to an empty dict. -/
def extractParameters (data : JSON) : JSON :=
  match featuresPath data with
  | .ok p => p
  | .error _ => .obj []

/-- `parameters.get(code, {}).get("data", [])` (lines 61-66). -/
def paramSeries (parameters : JSON) (code : String) : Except PyErr JSON := do
  let entry ← parameters.get code (.obj [])
  entry.get "data" (.arr [])

/-- `parameters.get(code, {}).get("unit", default)` (lines 84-89). -/
def paramUnit (parameters : JSON) (code : String) (dflt : String) : Except PyErr JSON := do
  let entry ← parameters.get code (.obj [])
  entry.get "unit" (.str dflt)

/-- One iteration of the loop on lines 69-79: the per-timestamp record. -/
def mkEntry (ts temp prec dew wdir wspd wgust : JSON) (i : Nat) : Except PyErr JSON := do
  let v1 ← guardedAt temp i
  let v2 ← guardedAt prec i
  let v3 ← guardedAt dew i
  let v4 ← guardedAt wdir i
  let v5 ← guardedAt wspd i
  let v6 ← guardedAt wgust i
  pure (.obj [("time", ts), ("temperature", v1), ("precipitation", v2),
    ("dew_point", v3), ("wind_direction", v4), ("wind_speed", v5), ("wind_gust", v6)])

/-- The whole loop of lines 68-79, starting at index `i`. -/
def buildEntries (temp prec dew wdir wspd wgust : JSON) :
    List JSON → Nat → Except PyErr (List JSON)
  | [], _ => .ok []
  | ts :: rest, i => do
    let e ← mkEntry ts temp prec dew wdir wspd wgust i
    let tail ← buildEntries temp prec dew wdir wspd wgust rest (i + 1)
    pure (e :: tail)

/-- Lines 53-90 of `process_geosphere_data`: the payload-dependent parts,
namely the `forecast_data` array and the `units` dict, in the evaluation
order of the source. -/
def geoCore (data : JSON) : Except PyErr (JSON × JSON) := do
  let timestamps ← data.get "timestamps" (.arr [])
  let parameters := extractParameters data
  let temperature ← paramSeries parameters "t2m"
  let precipitation ← paramSeries parameters "rr"
  let dew_point ← paramSeries parameters "td"
  let wind_direction ← paramSeries parameters "dd"
  let wind_speed ← paramSeries parameters "ff"
  let wind_gust ← paramSeries parameters "fx"
  let tsList ← iterJSON timestamps
  let fd ← buildEntries temperature precipitation dew_point wind_direction wind_speed wind_gust tsList 0
  let u1 ← paramUnit parameters "t2m" "°C"
  let u2 ← paramUnit parameters "rr" "kg m-2"
  let u3 ← paramUnit parameters "td" "°C"
  let u4 ← paramUnit parameters "dd" "m s-1"
  let u5 ← paramUnit parameters "ff" "m s-1"
  let u6 ← paramUnit parameters "fx" "m s-1"
  pure (.arr fd, .obj [("temperature", u1), ("precipitation", u2), ("dew_point", u3),
    ("wind_direction", u4), ("wind_speed", u5), ("wind_gust", u6)])

/-- `process_geosphere_data` (lines 39-92).  The `datetime.now(...)` call of
line 46 is the explicit `now` argument; the dict keys appear in the
insertion order of the source. -/
def process_geosphere_data (data : JSON) (now : String) : Except PyErr (Option JSON) :=
  if data.isFalsy then .ok none
  else (geoCore data).map fun r => some (.obj [
    ("location", .str "Kledering"), ("last_updated", .str now), ("source", .str "Geosphere"),
    ("forecast_type", .str "nowcast"), ("forecast_period", .str "3 hour"),
    ("resolution", .str "15 minute"), ("forecast_data", r.1), ("units", r.2)])

/-! ## process_data_for_frontend (lines 94-175) -/

/-- `data.get("current", {}).get(k)` (lines 104-121). -/
def curGet (data : JSON) (k : String) : Except PyErr JSON := do
  let c ← data.get "current" (.obj [])
  c.get k .null

/-- `data.get("current_units", {}).get(k, default)` (lines 107-122). -/
def curUnit (data : JSON) (k : String) (dflt : String) : Except PyErr JSON := do
  let c ← data.get "current_units" (.obj [])
  c.get k (.str dflt)

/-- The `current_weather` dict of lines 103-124, in source evaluation
order. -/
def buildCurrent (data : JSON) : Except PyErr JSON := do
  let t ← curGet data "time"
  let tval ← curGet data "temperature_2m"
  let tunit ← curUnit data "temperature_2m" "°C"
  let feels ← curGet data "apparent_temperature"
  let pval ← curGet data "precipitation"
  let punit ← curUnit data "precipitation" "mm"
  let wspeed ← curGet data "wind_speed_10m"
  let wgusts ← curGet data "wind_gusts_10m"
  let wdir ← curGet data "wind_direction_10m"
  let wunit ← curUnit data "wind_speed_10m" "km/h"
  let cval ← curGet data "cloud_cover"
  let cunit ← curUnit data "cloud_cover" "%"
  pure (.obj [("time", t),
    ("temperature", .obj [("value", tval), ("unit", tunit), ("feels_like", feels)]),
    ("precipitation", .obj [("value", pval), ("unit", punit)]),
    ("wind", .obj [("speed", wspeed), ("gusts", wgusts), ("direction", wdir), ("unit", wunit)]),
    ("cloud_cover", .obj [("value", cval), ("unit", cunit)])])

/-- The guarded expression
`sec.get(k, [])[i] if k in sec and i < len(sec[k]) else None`
used for every hourly and daily field (lines 136-143 and 160-169), in
Python evaluation order: the condition (membership, then `len(sec[k])`)
first, then the chosen branch. -/
def pyFieldAt (sec : JSON) (k : String) (i : Nat) : Except PyErr JSON := do
  let c ← pyContains sec k
  if c then do
    let v ← sec.getItemStr k
    let n ← pyLen v
    if i < n then do
      let v2 ← sec.get k (.arr [])
      v2.getItemNat i
    else pure JSON.null
  else pure JSON.null

/-- One iteration of the hourly loop (lines 133-146). -/
def hourEntry (hourly times : JSON) (i : Nat) : Except PyErr JSON := do
  let t ← times.getItemNat i
  let temp ← pyFieldAt hourly "temperature_2m" i
  let rain ← pyFieldAt hourly "rain" i
  let cc ← pyFieldAt hourly "cloud_cover" i
  let vis ← pyFieldAt hourly "visibility" i
  let ws ← pyFieldAt hourly "wind_speed_10m" i
  let wd ← pyFieldAt hourly "wind_direction_10m" i
  let wg ← pyFieldAt hourly "wind_gusts_10m" i
  pure (.obj [("time", t), ("temperature", temp), ("rain", rain), ("cloud_cover", cc),
    ("visibility", vis),
    ("wind", .obj [("speed", ws), ("direction", wd), ("gusts", wg)])])

/-- The hourly loop, `fuel` iterations remaining, current index `i`. -/
def buildHourlyAux (hourly times : JSON) : Nat → Nat → Except PyErr (List JSON)
  | 0, _ => .ok []
  | fuel + 1, i => do
    let e ← hourEntry hourly times i
    let rest ← buildHourlyAux hourly times fuel (i + 1)
    pure (e :: rest)

/-- `for i in range(len(times))` over the hourly section. -/
def buildHourly (hourly times : JSON) : Except PyErr (List JSON) := do
  let n ← pyLen times
  buildHourlyAux hourly times n 0

/-- One iteration of the daily loop (lines 156-171). -/
def dayEntry (daily times : JSON) (i : Nat) : Except PyErr JSON := do
  let t ← times.getItemNat i
  let tmax ← pyFieldAt daily "temperature_2m_max" i
  let tmin ← pyFieldAt daily "temperature_2m_min" i
  let sr ← pyFieldAt daily "sunrise" i
  let ss ← pyFieldAt daily "sunset" i
  let dl ← pyFieldAt daily "daylight_duration" i
  let uv ← pyFieldAt daily "uv_index_max" i
  let ps ← pyFieldAt daily "precipitation_sum" i
  pure (.obj [("date", t),
    ("temperature", .obj [("max", tmax), ("min", tmin)]),
    ("sun", .obj [("sunrise", sr), ("sunset", ss), ("daylight_duration", dl)]),
    ("uv_index_max", uv), ("precipitation_sum", ps)])

/-- The daily loop, `fuel` iterations remaining, current index `i`. -/
def buildDailyAux (daily times : JSON) : Nat → Nat → Except PyErr (List JSON)
  | 0, _ => .ok []
  | fuel + 1, i => do
    let e ← dayEntry daily times i
    let rest ← buildDailyAux daily times fuel (i + 1)
    pure (e :: rest)

/-- `for i in range(len(times))` over the daily section. -/
def buildDaily (daily times : JSON) : Except PyErr (List JSON) := do
  let n ← pyLen times
  buildDailyAux daily times n 0

/-- Lines 103-173 of `process_data_for_frontend`: the payload-dependent
parts (current weather, hourly list, optional daily list), in source
evaluation order.  The daily section is only processed when the `daily`
value is truthy (line 152). -/
def frontendCore (data : JSON) : Except PyErr (JSON × JSON × Option JSON) := do
  let cw ← buildCurrent data
  let hourly ← data.get "hourly" (.obj [])
  let times ← hourly.get "time" (.arr [])
  let ph ← buildHourly hourly times
  let daily ← data.get "daily" (.obj [])
  if daily.isFalsy then
    pure (cw, .arr ph, none)
  else do
    let dtimes ← daily.get "time" (.arr [])
    let pd ← buildDaily daily dtimes
    pure (cw, .arr ph, some (.arr pd))

/-- `process_data_for_frontend` (lines 94-175).  The key `hourly_forecast`
keeps its insertion position from line 125; `daily_forecast` is appended
last, and only when the daily section is truthy. -/
def process_data_for_frontend (data : JSON) (now : String) : Except PyErr (Option JSON) :=
  if data.isFalsy then .ok none
  else (frontendCore data).map fun r => some (.obj (
    [("location", .str "Kledering"), ("last_updated", .str now),
     ("current_weather", r.1), ("hourly_forecast", r.2.1)] ++
    (match r.2.2 with
     | some d => [("daily_forecast", d)]
     | none => [])))

/-! ## Accessors and well-typedness predicates used in the statements -/

/-- Key lookup on an object value (spec-side accessor). -/
def lookupKey (v : JSON) (k : String) : Option JSON :=
  match v with
  | .obj fs => alookup k fs
  | _ => none

/-- Key lookup on a successful, non-`None` processing result. -/
def outKey (r : Except PyErr (Option JSON)) (k : String) : Option JSON :=
  match r with
  | .ok (some v) => lookupKey v k
  | _ => none

/-- Whether a successful, non-`None` processing result has a top-level key. -/
def outHasKey (r : Except PyErr (Option JSON)) (k : String) : Bool :=
  (outKey r k).isSome

/-- The six tracked Geosphere fields: parameter code, output field name and
the fixed fallback unit hard-coded on lines 84-89. -/
def geoFields : List (String × String × String) :=
  [("t2m", "temperature", "°C"), ("rr", "precipitation", "kg m-2"),
   ("td", "dew_point", "°C"), ("dd", "wind_direction", "m s-1"),
   ("ff", "wind_speed", "m s-1"), ("fx", "wind_gust", "m s-1")]

def optObj : Option JSON → Bool
  | none => true
  | some (.obj _) => true
  | some _ => false

def optArr : Option JSON → Bool
  | none => true
  | some (.arr _) => true
  | some _ => false

/-- A well-typed parameter entry: absent, or a dict whose `data` value (if
any) is a list. -/
def entryOK : Option JSON → Bool
  | none => true
  | some (.obj e) => optArr (alookup "data" e)
  | some _ => false

/-- Well-typedness of the (possibly degraded) parameters dict: each of the
six tracked codes has a well-typed entry. -/
def paramsOK : JSON → Bool
  | .obj pf => (geoFields.map fun f => f.1).all fun c => entryOK (alookup c pf)
  | _ => false

/-- A weaker condition: each tracked entry is absent or a dict (enough to
process an empty timestamp list, where no data list is ever indexed). -/
def entriesObjOK : JSON → Bool
  | .obj pf => (geoFields.map fun f => f.1).all fun c => optObj (alookup c pf)
  | _ => false

def hourlyKeys : List String :=
  ["temperature_2m", "rain", "cloud_cover", "visibility",
   "wind_speed_10m", "wind_direction_10m", "wind_gusts_10m"]

def dailyKeys : List String :=
  ["temperature_2m_max", "temperature_2m_min", "sunrise", "sunset",
   "daylight_duration", "uv_index_max", "precipitation_sum"]

/-- A well-typed payload section: a dict whose `time` value and tracked
series values, when present, are lists. -/
def sectionOK (sec : JSON) (keys : List String) : Bool :=
  match sec with
  | .obj fs => optArr (alookup "time" fs) && keys.all fun k => optArr (alookup k fs)
  | _ => false

/-- Well-typedness of an Open-Meteo payload for `process_data_for_frontend`:
the `current` and `current_units` values are dicts when present, the
`hourly` section is well typed when present, and the `daily` section is
falsy or well typed when present. -/
def frontendOK : JSON → Bool
  | .obj fs =>
    optObj (alookup "current" fs) && optObj (alookup "current_units" fs) &&
    (match alookup "hourly" fs with
     | none => true
     | some h => sectionOK h hourlyKeys) &&
    (match alookup "daily" fs with
     | none => true
     | some d => d.isFalsy || sectionOK d dailyKeys)
  | _ => false

/-- The value the aligner assigns for series `k` at index `i`: the listed
value when the list reaches index `i`, null otherwise. -/
def seriesVal (fs : List (String × JSON)) (k : String) (i : Nat) : JSON :=
  match alookup k fs with
  | some (.arr vs) => (vs.get? i).getD .null
  | _ => .null

/-- The hourly record produced for index `i` from a well-typed hourly
section `hs` with time list `ts`. -/
def hourRecord (hs : List (String × JSON)) (ts : List JSON) (i : Nat) : JSON :=
  .obj [("time", (ts.get? i).getD .null),
    ("temperature", seriesVal hs "temperature_2m" i),
    ("rain", seriesVal hs "rain" i),
    ("cloud_cover", seriesVal hs "cloud_cover" i),
    ("visibility", seriesVal hs "visibility" i),
    ("wind", .obj [("speed", seriesVal hs "wind_speed_10m" i),
      ("direction", seriesVal hs "wind_direction_10m" i),
      ("gusts", seriesVal hs "wind_gusts_10m" i)])]

/-- Where an hourly input series named `k` lands inside an output hourly
record (the three wind series are nested under `wind`). -/
def hourRecVal (r : JSON) (k : String) : Option JSON :=
  if k = "temperature_2m" then lookupKey r "temperature"
  else if k = "rain" then lookupKey r "rain"
  else if k = "cloud_cover" then lookupKey r "cloud_cover"
  else if k = "visibility" then lookupKey r "visibility"
  else if k = "wind_speed_10m" then (lookupKey r "wind").bind fun w => lookupKey w "speed"
  else if k = "wind_direction_10m" then (lookupKey r "wind").bind fun w => lookupKey w "direction"
  else if k = "wind_gusts_10m" then (lookupKey r "wind").bind fun w => lookupKey w "gusts"
  else none

/-- The geosphere record produced for timestamp `t` at index `i` from six
data lists. -/
def geoRecord (va vb vc vd ve vf : List JSON) (t : JSON) (i : Nat) : JSON :=
  .obj [("time", t),
    ("temperature", (va.get? i).getD .null),
    ("precipitation", (vb.get? i).getD .null),
    ("dew_point", (vc.get? i).getD .null),
    ("wind_direction", (vd.get? i).getD .null),
    ("wind_speed", (ve.get? i).getD .null),
    ("wind_gust", (vf.get? i).getD .null)]

/-- The geosphere record list for a timestamp list, starting at index `i`. -/
def geoRecords (va vb vc vd ve vf : List JSON) : List JSON → Nat → List JSON
  | [], _ => []
  | t :: rest, i => geoRecord va vb vc vd ve vf t i :: geoRecords va vb vc vd ve vf rest (i + 1)

/-- The data list of a parameter entry, empty when absent or defaulted. -/
def entryData (pf : List (String × JSON)) (c : String) : List JSON :=
  match alookup c pf with
  | some (.obj e) =>
    match alookup "data" e with
    | some (.arr vs) => vs
    | _ => []
  | _ => []

/-- The unit of a parameter entry, with fallback default `d`. -/
def unitVal (pf : List (String × JSON)) (c : String) (d : String) : JSON :=
  match alookup c pf with
  | some (.obj e) => (alookup "unit" e).getD (.str d)
  | _ => .str d

/-- The full default-unit table of lines 84-89. -/
def geoDefaultUnits : JSON :=
  .obj [("temperature", .str "°C"), ("precipitation", .str "kg m-2"),
    ("dew_point", .str "°C"), ("wind_direction", .str "m s-1"),
    ("wind_speed", .str "m s-1"), ("wind_gust", .str "m s-1")]

/-- A processing result with the top-level `last_updated` key removed. -/
def stripLastUpdated : Except PyErr (Option JSON) → Except PyErr (Option JSON)
  | .ok (some (.obj fs)) => .ok (some (.obj (fs.filter fun p => p.1 != "last_updated")))
  | r => r

/-! ## Inversion and evaluation lemmas for the Except chains -/

theorem exbind_ok {α β : Type} {e : Except PyErr α} {k : α → Except PyErr β} {b : β} :
    (e >>= k) = .ok b ↔ ∃ a, e = .ok a ∧ k a = .ok b := by
  cases e with
  | error err =>
    constructor
    · intro h
      exact nomatch h
    · rintro ⟨a, ha, hk⟩
      exact nomatch ha
  | ok a =>
    constructor
    · intro h
      exact ⟨a, rfl, h⟩
    · rintro ⟨a2, ha, hk⟩
      cases ha
      exact hk

theorem expure_ok {α : Type} {a b : α} : (pure a : Except PyErr α) = .ok b ↔ a = b :=
  ⟨fun h => by cases h; rfl, fun h => by cases h; rfl⟩

theorem exmap_ok {α β : Type} {f : α → β} {e : Except PyErr α} {b : β} :
    Except.map f e = .ok b ↔ ∃ a, e = .ok a ∧ f a = b := by
  cases e with
  | error err =>
    constructor
    · intro h
      exact nomatch h
    · rintro ⟨a, ha, hk⟩
      exact nomatch ha
  | ok a =>
    constructor
    · intro h
      cases h
      exact ⟨a, rfl, rfl⟩
    · rintro ⟨a2, ha, hk⟩
      cases ha
      cases hk
      rfl

theorem exbind_okl {α β : Type} (a : α) (k : α → Except PyErr β) :
    ((Except.ok a : Except PyErr α) >>= k) = k a := rfl

theorem exmap_okl {α β : Type} (f : α → β) (a : α) :
    Except.map f (Except.ok a : Except PyErr α) = .ok (f a) := rfl

theorem isFalsy_eq_false {b : JSON} (h : ¬b.isFalsy = true) : b.isFalsy = false := by
  cases hb : b.isFalsy with
  | false => rfl
  | true => exact absurd hb h

/-! ## Geosphere evaluation lemmas -/

theorem guardedAt_arr (xs : List JSON) (i : Nat) :
    guardedAt (.arr xs) i = .ok ((xs.get? i).getD .null) := by
  show (if i < xs.length then JSON.getItemNat (.arr xs) i else pure JSON.null) = _
  by_cases h : i < xs.length
  · rw [if_pos h]
    simp [JSON.getItemNat, List.get?_eq_getElem?, List.getElem?_eq_getElem h]
  · rw [if_neg h]
    simp only [List.get?_eq_getElem?, List.getElem?_eq_none (Nat.le_of_not_lt h)]
    rfl

theorem guardedAt_nil (i : Nat) : guardedAt (.arr []) i = .ok JSON.null := by
  rw [guardedAt_arr]
  rfl

theorem mkEntry_arr (t : JSON) (va vb vc vd ve vf : List JSON) (i : Nat) :
    mkEntry t (.arr va) (.arr vb) (.arr vc) (.arr vd) (.arr ve) (.arr vf) i =
      .ok (geoRecord va vb vc vd ve vf t i) := by
  simp only [mkEntry, guardedAt_arr, exbind_okl]
  rfl

theorem mkEntry_inv {t a b c d e f : JSON} {i : Nat} {r : JSON}
    (h : mkEntry t a b c d e f i = .ok r) :
    ∃ v1 v2 v3 v4 v5 v6, guardedAt a i = .ok v1 ∧ guardedAt b i = .ok v2 ∧
      guardedAt c i = .ok v3 ∧ guardedAt d i = .ok v4 ∧ guardedAt e i = .ok v5 ∧
      guardedAt f i = .ok v6 ∧
      r = .obj [("time", t), ("temperature", v1), ("precipitation", v2),
        ("dew_point", v3), ("wind_direction", v4), ("wind_speed", v5), ("wind_gust", v6)] := by
  simp only [mkEntry, exbind_ok, expure_ok] at h
  obtain ⟨v1, h1, v2, h2, v3, h3, v4, h4, v5, h5, v6, h6, hr⟩ := h
  exact ⟨v1, v2, v3, v4, v5, v6, h1, h2, h3, h4, h5, h6, hr.symm⟩

theorem buildEntries_length {a b c d e f : JSON} :
    ∀ (ts : List JSON) (i : Nat) (l : List JSON),
      buildEntries a b c d e f ts i = .ok l → l.length = ts.length := by
  intro ts
  induction ts with
  | nil =>
    intro i l h
    cases h
    rfl
  | cons t rest ih =>
    intro i l h
    simp only [buildEntries, exbind_ok, expure_ok] at h
    obtain ⟨e1, he, tl, htl, hl⟩ := h
    cases hl
    simp [ih _ _ htl]

theorem buildEntries_mem {a b c d e f : JSON} :
    ∀ (ts : List JSON) (i : Nat) (l : List JSON),
      buildEntries a b c d e f ts i = .ok l →
      ∀ r ∈ l, ∃ t j, mkEntry t a b c d e f j = .ok r := by
  intro ts
  induction ts with
  | nil =>
    intro i l h r hr
    cases h
    exact absurd hr (by simp)
  | cons t rest ih =>
    intro i l h r hr
    simp only [buildEntries, exbind_ok, expure_ok] at h
    obtain ⟨e1, he, tl, htl, hl⟩ := h
    cases hl
    rcases List.mem_cons.mp hr with h1 | h2
    · exact ⟨t, i, by rw [h1]; exact he⟩
    · exact ih _ _ htl r h2

theorem buildEntries_arr (va vb vc vd ve vf : List JSON) :
    ∀ (ts : List JSON) (i : Nat),
      buildEntries (.arr va) (.arr vb) (.arr vc) (.arr vd) (.arr ve) (.arr vf) ts i =
        .ok (geoRecords va vb vc vd ve vf ts i) := by
  intro ts
  induction ts with
  | nil => intro i; rfl
  | cons t rest ih =>
    intro i
    simp only [buildEntries, mkEntry_arr, exbind_okl, ih, geoRecords]
    rfl

theorem geoRecords_length (va vb vc vd ve vf : List JSON) :
    ∀ (ts : List JSON) (i : Nat), (geoRecords va vb vc vd ve vf ts i).length = ts.length := by
  intro ts
  induction ts with
  | nil => intro i; rfl
  | cons t rest ih => intro i; simp [geoRecords, ih]

theorem geoRecords_get (va vb vc vd ve vf : List JSON) :
    ∀ (ts : List JSON) (i j : Nat), j < ts.length →
      (geoRecords va vb vc vd ve vf ts i).get? j =
        some (geoRecord va vb vc vd ve vf ((ts.get? j).getD .null) (i + j)) := by
  intro ts
  induction ts with
  | nil =>
    intro i j h
    exact absurd h (by simp)
  | cons t rest ih =>
    intro i j h
    cases j with
    | zero => rfl
    | succ j2 =>
      have h2 : j2 < rest.length := by
        simpa [Nat.succ_lt_succ_iff] using h
      have harith : i + 1 + j2 = i + (j2 + 1) := by omega
      show (geoRecords va vb vc vd ve vf rest (i + 1)).get? j2 = _
      rw [ih (i + 1) j2 h2, harith]
      rfl

theorem geoRecords_mem (va vb vc vd ve vf : List JSON) :
    ∀ (ts : List JSON) (i : Nat) (r : JSON), r ∈ geoRecords va vb vc vd ve vf ts i →
      ∃ t j, r = geoRecord va vb vc vd ve vf t j := by
  intro ts
  induction ts with
  | nil =>
    intro i r hr
    exact absurd hr (by simp [geoRecords])
  | cons t rest ih =>
    intro i r hr
    rcases List.mem_cons.mp hr with h1 | h2
    · exact ⟨t, i, h1⟩
    · exact ih _ _ h2

theorem paramSeries_eval (pf : List (String × JSON)) (c : String)
    (h : entryOK (alookup c pf) = true) :
    paramSeries (.obj pf) c = .ok (.arr (entryData pf c)) := by
  simp only [paramSeries, JSON.get, exbind_okl, entryData]
  cases ha : alookup c pf with
  | none => rfl
  | some v =>
    cases v with
    | obj e =>
      rw [ha] at h
      simp only [entryOK] at h
      simp only [Option.getD, JSON.get]
      cases hd : alookup "data" e with
      | none => rfl
      | some w =>
        cases w with
        | arr vs => rfl
        | null => rw [hd] at h; exact nomatch h
        | bool b2 => rw [hd] at h; exact nomatch h
        | num q => rw [hd] at h; exact nomatch h
        | str s => rw [hd] at h; exact nomatch h
        | obj o => rw [hd] at h; exact nomatch h
    | null => rw [ha] at h; exact nomatch h
    | bool b2 => rw [ha] at h; exact nomatch h
    | num q => rw [ha] at h; exact nomatch h
    | str s => rw [ha] at h; exact nomatch h
    | arr xs => rw [ha] at h; exact nomatch h

theorem paramUnit_eval (pf : List (String × JSON)) (c d : String)
    (h : entryOK (alookup c pf) = true) :
    paramUnit (.obj pf) c d = .ok (unitVal pf c d) := by
  simp only [paramUnit, JSON.get, exbind_okl, unitVal]
  cases ha : alookup c pf with
  | none => rfl
  | some v =>
    cases v with
    | obj e => rfl
    | null => rw [ha] at h; exact nomatch h
    | bool b2 => rw [ha] at h; exact nomatch h
    | num q => rw [ha] at h; exact nomatch h
    | str s => rw [ha] at h; exact nomatch h
    | arr xs => rw [ha] at h; exact nomatch h

theorem entryOK_of_none {o : Option JSON} (h : o = none) : entryOK o = true := by
  rw [h]; rfl

theorem entryData_none {pf : List (String × JSON)} {c : String}
    (h : alookup c pf = none) : entryData pf c = [] := by
  simp [entryData, h]

theorem unitVal_none {pf : List (String × JSON)} {c d : String}
    (h : alookup c pf = none) : unitVal pf c d = .str d := by
  simp [unitVal, h]

theorem paramSeries_objOK (pf : List (String × JSON)) (c : String)
    (h : optObj (alookup c pf) = true) :
    ∃ v, paramSeries (.obj pf) c = .ok v := by
  simp only [paramSeries, JSON.get, exbind_okl]
  cases ha : alookup c pf with
  | none => exact ⟨.arr [], rfl⟩
  | some v =>
    cases v with
    | obj e => exact ⟨(alookup "data" e).getD (.arr []), rfl⟩
    | null => rw [ha] at h; exact nomatch h
    | bool b2 => rw [ha] at h; exact nomatch h
    | num q => rw [ha] at h; exact nomatch h
    | str s => rw [ha] at h; exact nomatch h
    | arr xs => rw [ha] at h; exact nomatch h

theorem paramUnit_objOK (pf : List (String × JSON)) (c d : String)
    (h : optObj (alookup c pf) = true) :
    ∃ v, paramUnit (.obj pf) c d = .ok v := by
  simp only [paramUnit, JSON.get, exbind_okl]
  cases ha : alookup c pf with
  | none => exact ⟨.str d, rfl⟩
  | some v =>
    cases v with
    | obj e => exact ⟨(alookup "unit" e).getD (.str d), rfl⟩
    | null => rw [ha] at h; exact nomatch h
    | bool b2 => rw [ha] at h; exact nomatch h
    | num q => rw [ha] at h; exact nomatch h
    | str s => rw [ha] at h; exact nomatch h
    | arr xs => rw [ha] at h; exact nomatch h

theorem paramsOK_split {pf : List (String × JSON)} (h : paramsOK (.obj pf) = true) :
    entryOK (alookup "t2m" pf) = true ∧ entryOK (alookup "rr" pf) = true ∧
    entryOK (alookup "td" pf) = true ∧ entryOK (alookup "dd" pf) = true ∧
    entryOK (alookup "ff" pf) = true ∧ entryOK (alookup "fx" pf) = true := by
  simpa [paramsOK, geoFields, List.all, Bool.and_eq_true, and_assoc] using h

theorem geoCore_eval (data : JSON) (ts : List JSON) (pf : List (String × JSON))
    (hts : data.get "timestamps" (.arr []) = .ok (.arr ts))
    (hP : extractParameters data = .obj pf)
    (hOK : paramsOK (.obj pf) = true) :
    geoCore data = .ok (
      .arr (geoRecords (entryData pf "t2m") (entryData pf "rr") (entryData pf "td")
        (entryData pf "dd") (entryData pf "ff") (entryData pf "fx") ts 0),
      .obj [("temperature", unitVal pf "t2m" "°C"), ("precipitation", unitVal pf "rr" "kg m-2"),
        ("dew_point", unitVal pf "td" "°C"), ("wind_direction", unitVal pf "dd" "m s-1"),
        ("wind_speed", unitVal pf "ff" "m s-1"), ("wind_gust", unitVal pf "fx" "m s-1")]) := by
  obtain ⟨e1, e2, e3, e4, e5, e6⟩ := paramsOK_split hOK
  simp only [geoCore, hts, hP, exbind_okl,
    paramSeries_eval pf "t2m" e1, paramSeries_eval pf "rr" e2, paramSeries_eval pf "td" e3,
    paramSeries_eval pf "dd" e4, paramSeries_eval pf "ff" e5, paramSeries_eval pf "fx" e6,
    iterJSON, buildEntries_arr,
    paramUnit_eval pf "t2m" "°C" e1, paramUnit_eval pf "rr" "kg m-2" e2,
    paramUnit_eval pf "td" "°C" e3, paramUnit_eval pf "dd" "m s-1" e4,
    paramUnit_eval pf "ff" "m s-1" e5, paramUnit_eval pf "fx" "m s-1" e6]
  rfl

theorem geoCore_inv {data : JSON} {fd un : JSON} (h : geoCore data = .ok (fd, un)) :
    ∃ tsJ s1 s2 s3 s4 s5 s6 tsl l u1 u2 u3 u4 u5 u6,
      data.get "timestamps" (.arr []) = .ok tsJ ∧
      paramSeries (extractParameters data) "t2m" = .ok s1 ∧
      paramSeries (extractParameters data) "rr" = .ok s2 ∧
      paramSeries (extractParameters data) "td" = .ok s3 ∧
      paramSeries (extractParameters data) "dd" = .ok s4 ∧
      paramSeries (extractParameters data) "ff" = .ok s5 ∧
      paramSeries (extractParameters data) "fx" = .ok s6 ∧
      iterJSON tsJ = .ok tsl ∧
      buildEntries s1 s2 s3 s4 s5 s6 tsl 0 = .ok l ∧
      paramUnit (extractParameters data) "t2m" "°C" = .ok u1 ∧
      paramUnit (extractParameters data) "rr" "kg m-2" = .ok u2 ∧
      paramUnit (extractParameters data) "td" "°C" = .ok u3 ∧
      paramUnit (extractParameters data) "dd" "m s-1" = .ok u4 ∧
      paramUnit (extractParameters data) "ff" "m s-1" = .ok u5 ∧
      paramUnit (extractParameters data) "fx" "m s-1" = .ok u6 ∧
      fd = .arr l ∧
      un = .obj [("temperature", u1), ("precipitation", u2), ("dew_point", u3),
        ("wind_direction", u4), ("wind_speed", u5), ("wind_gust", u6)] := by
  simp only [geoCore, exbind_ok, expure_ok, Prod.mk.injEq] at h
  obtain ⟨tsJ, hts, s1, h1, s2, h2, s3, h3, s4, h4, s5, h5, s6, h6, tsl, hit, l, hl,
    u1, hu1, u2, hu2, u3, hu3, u4, hu4, u5, hu5, u6, hu6, hfd, hun⟩ := h
  exact ⟨tsJ, s1, s2, s3, s4, s5, s6, tsl, l, u1, u2, u3, u4, u5, u6,
    hts, h1, h2, h3, h4, h5, h6, hit, hl, hu1, hu2, hu3, hu4, hu5, hu6,
    hfd.symm, hun.symm⟩

theorem process_geo_ok_some {data : JSON} {now : String} {out : JSON}
    (h : process_geosphere_data data now = .ok (some out)) :
    data.isFalsy = false ∧ ∃ fd un, geoCore data = .ok (fd, un) ∧
      out = .obj [("location", .str "Kledering"), ("last_updated", .str now),
        ("source", .str "Geosphere"), ("forecast_type", .str "nowcast"),
        ("forecast_period", .str "3 hour"), ("resolution", .str "15 minute"),
        ("forecast_data", fd), ("units", un)] := by
  by_cases hf : data.isFalsy = true
  · rw [process_geosphere_data, if_pos hf] at h
    injection h with h2
    exact nomatch h2
  · rw [process_geosphere_data, if_neg hf] at h
    rw [exmap_ok] at h
    obtain ⟨⟨fd, un⟩, hg, hout⟩ := h
    injection hout with hout2
    exact ⟨isFalsy_eq_false hf, fd, un, hg, hout2.symm⟩

theorem process_geo_eval {data : JSON} {fd un : JSON} (now : String)
    (hf : data.isFalsy = false) (hg : geoCore data = .ok (fd, un)) :
    process_geosphere_data data now = .ok (some (.obj [
      ("location", .str "Kledering"), ("last_updated", .str now),
      ("source", .str "Geosphere"), ("forecast_type", .str "nowcast"),
      ("forecast_period", .str "3 hour"), ("resolution", .str "15 minute"),
      ("forecast_data", fd), ("units", un)])) := by
  rw [process_geosphere_data, if_neg (by simp [hf]), hg]
  rfl

/-! ## Frontend evaluation lemmas -/

/-- The current-weather value for key `k`, null when absent. -/
def curVal (fs : List (String × JSON)) (k : String) : JSON :=
  match alookup "current" fs with
  | some (.obj cs) => (alookup k cs).getD .null
  | _ => .null

/-- The current-weather unit for key `k`, with fallback default `d`. -/
def curUnitVal (fs : List (String × JSON)) (k d : String) : JSON :=
  match alookup "current_units" fs with
  | some (.obj cs) => (alookup k cs).getD (.str d)
  | _ => .str d

/-- The `current_weather` object produced from a well-typed payload. -/
def currentWeather (fs : List (String × JSON)) : JSON :=
  .obj [("time", curVal fs "time"),
    ("temperature", .obj [("value", curVal fs "temperature_2m"),
      ("unit", curUnitVal fs "temperature_2m" "°C"),
      ("feels_like", curVal fs "apparent_temperature")]),
    ("precipitation", .obj [("value", curVal fs "precipitation"),
      ("unit", curUnitVal fs "precipitation" "mm")]),
    ("wind", .obj [("speed", curVal fs "wind_speed_10m"),
      ("gusts", curVal fs "wind_gusts_10m"),
      ("direction", curVal fs "wind_direction_10m"),
      ("unit", curUnitVal fs "wind_speed_10m" "km/h")]),
    ("cloud_cover", .obj [("value", curVal fs "cloud_cover"),
      ("unit", curUnitVal fs "cloud_cover" "%")])]

/-- The hourly record list: `fuel` records starting at index `i`. -/
def hourRecords (hs : List (String × JSON)) (ts : List JSON) : Nat → Nat → List JSON
  | 0, _ => []
  | fuel + 1, i => hourRecord hs ts i :: hourRecords hs ts fuel (i + 1)

/-- The dict of the hourly section, empty when absent or defaulted. -/
def hourlySection (fs : List (String × JSON)) : List (String × JSON) :=
  match alookup "hourly" fs with
  | some (.obj hs) => hs
  | _ => []

/-- The hourly time list, empty when absent or defaulted. -/
def hourlyTimes (fs : List (String × JSON)) : List JSON :=
  match alookup "time" (hourlySection fs) with
  | some (.arr ts) => ts
  | _ => []

/-- The full hourly record list produced from a well-typed payload. -/
def hourlyOut (fs : List (String × JSON)) : List JSON :=
  hourRecords (hourlySection fs) (hourlyTimes fs) (hourlyTimes fs).length 0

theorem curGet_eval {fs : List (String × JSON)}
    (h : optObj (alookup "current" fs) = true) (k : String) :
    curGet (.obj fs) k = .ok (curVal fs k) := by
  simp only [curGet, JSON.get, exbind_okl, curVal]
  cases ha : alookup "current" fs with
  | none => rfl
  | some v =>
    cases v with
    | obj cs => rfl
    | null => rw [ha] at h; exact nomatch h
    | bool b2 => rw [ha] at h; exact nomatch h
    | num q => rw [ha] at h; exact nomatch h
    | str s => rw [ha] at h; exact nomatch h
    | arr xs => rw [ha] at h; exact nomatch h

theorem curUnit_eval {fs : List (String × JSON)}
    (h : optObj (alookup "current_units" fs) = true) (k d : String) :
    curUnit (.obj fs) k d = .ok (curUnitVal fs k d) := by
  simp only [curUnit, JSON.get, exbind_okl, curUnitVal]
  cases ha : alookup "current_units" fs with
  | none => rfl
  | some v =>
    cases v with
    | obj cs => rfl
    | null => rw [ha] at h; exact nomatch h
    | bool b2 => rw [ha] at h; exact nomatch h
    | num q => rw [ha] at h; exact nomatch h
    | str s => rw [ha] at h; exact nomatch h
    | arr xs => rw [ha] at h; exact nomatch h

theorem buildCurrent_eval {fs : List (String × JSON)}
    (h1 : optObj (alookup "current" fs) = true)
    (h2 : optObj (alookup "current_units" fs) = true) :
    buildCurrent (.obj fs) = .ok (currentWeather fs) := by
  simp only [buildCurrent, curGet_eval h1, curUnit_eval h2, exbind_okl]
  rfl

theorem pyFieldAt_eval (hs : List (String × JSON)) (k : String) (i : Nat)
    (h : optArr (alookup k hs) = true) :
    pyFieldAt (.obj hs) k i = .ok (seriesVal hs k i) := by
  cases ha : alookup k hs with
  | none =>
    simp only [pyFieldAt, pyContains, ha, Option.isSome, exbind_okl, seriesVal]
    rfl
  | some v =>
    cases v with
    | arr vs =>
      simp only [pyFieldAt, pyContains, ha, Option.isSome, exbind_okl,
        JSON.getItemStr, pyLen, seriesVal]
      show (if i < vs.length then _ else _) = _
      by_cases hi : i < vs.length
      · rw [if_pos hi]
        simp only [JSON.get, exbind_okl, ha, Option.getD, JSON.getItemNat,
          List.get?_eq_getElem?, List.getElem?_eq_getElem hi]
      · rw [if_neg hi]
        simp only [List.get?_eq_getElem?, List.getElem?_eq_none (Nat.le_of_not_lt hi)]
        rfl
    | null => rw [ha] at h; exact nomatch h
    | bool b2 => rw [ha] at h; exact nomatch h
    | num q => rw [ha] at h; exact nomatch h
    | str s => rw [ha] at h; exact nomatch h
    | obj o => rw [ha] at h; exact nomatch h

theorem sectionOK_split {hs : List (String × JSON)}
    (h : sectionOK (.obj hs) hourlyKeys = true) :
    optArr (alookup "time" hs) = true ∧
    optArr (alookup "temperature_2m" hs) = true ∧ optArr (alookup "rain" hs) = true ∧
    optArr (alookup "cloud_cover" hs) = true ∧ optArr (alookup "visibility" hs) = true ∧
    optArr (alookup "wind_speed_10m" hs) = true ∧
    optArr (alookup "wind_direction_10m" hs) = true ∧
    optArr (alookup "wind_gusts_10m" hs) = true := by
  simpa [sectionOK, hourlyKeys, List.all, Bool.and_eq_true, and_assoc] using h

theorem hourEntry_eval {hs : List (String × JSON)} {ts : List JSON} {i : Nat}
    (hOK : sectionOK (.obj hs) hourlyKeys = true) (hi : i < ts.length) :
    hourEntry (.obj hs) (.arr ts) i = .ok (hourRecord hs ts i) := by
  obtain ⟨h0, h1, h2, h3, h4, h5, h6, h7⟩ := sectionOK_split hOK
  have ht : JSON.getItemNat (.arr ts) i = .ok ((ts.get? i).getD .null) := by
    simp [JSON.getItemNat, List.get?_eq_getElem?, List.getElem?_eq_getElem hi]
  simp only [hourEntry, ht, exbind_okl,
    pyFieldAt_eval hs "temperature_2m" i h1, pyFieldAt_eval hs "rain" i h2,
    pyFieldAt_eval hs "cloud_cover" i h3, pyFieldAt_eval hs "visibility" i h4,
    pyFieldAt_eval hs "wind_speed_10m" i h5, pyFieldAt_eval hs "wind_direction_10m" i h6,
    pyFieldAt_eval hs "wind_gusts_10m" i h7]
  rfl

theorem buildHourlyAux_eval {hs : List (String × JSON)} {ts : List JSON}
    (hOK : sectionOK (.obj hs) hourlyKeys = true) :
    ∀ (fuel i : Nat), i + fuel ≤ ts.length →
      buildHourlyAux (.obj hs) (.arr ts) fuel i = .ok (hourRecords hs ts fuel i) := by
  intro fuel
  induction fuel with
  | zero => intro i h; rfl
  | succ f2 ih =>
    intro i h
    have hi : i < ts.length := by omega
    have h2 : i + 1 + f2 ≤ ts.length := by omega
    simp only [buildHourlyAux, hourEntry_eval hOK hi, exbind_okl, ih (i + 1) h2, hourRecords]
    rfl

theorem buildHourly_eval {hs : List (String × JSON)} {ts : List JSON}
    (hOK : sectionOK (.obj hs) hourlyKeys = true) :
    buildHourly (.obj hs) (.arr ts) = .ok (hourRecords hs ts ts.length 0) := by
  simp only [buildHourly, pyLen, exbind_okl]
  exact buildHourlyAux_eval hOK ts.length 0 (by omega)

theorem hourRecords_length (hs : List (String × JSON)) (ts : List JSON) :
    ∀ (fuel i : Nat), (hourRecords hs ts fuel i).length = fuel := by
  intro fuel
  induction fuel with
  | zero => intro i; rfl
  | succ f2 ih => intro i; simp [hourRecords, ih]

theorem hourRecords_get (hs : List (String × JSON)) (ts : List JSON) :
    ∀ (fuel i j : Nat), j < fuel →
      (hourRecords hs ts fuel i).get? j = some (hourRecord hs ts (i + j)) := by
  intro fuel
  induction fuel with
  | zero =>
    intro i j h
    exact absurd h (by omega)
  | succ f2 ih =>
    intro i j h
    cases j with
    | zero => rfl
    | succ j2 =>
      have h2 : j2 < f2 := by omega
      have harith : i + 1 + j2 = i + (j2 + 1) := by omega
      show (hourRecords hs ts f2 (i + 1)).get? j2 = _
      rw [ih (i + 1) j2 h2, harith]

/-- The daily record produced for index `i` from a well-typed daily
section `ds` with time list `ts`. -/
def dayRecord (ds : List (String × JSON)) (ts : List JSON) (i : Nat) : JSON :=
  .obj [("date", (ts.get? i).getD .null),
    ("temperature", .obj [("max", seriesVal ds "temperature_2m_max" i),
      ("min", seriesVal ds "temperature_2m_min" i)]),
    ("sun", .obj [("sunrise", seriesVal ds "sunrise" i),
      ("sunset", seriesVal ds "sunset" i),
      ("daylight_duration", seriesVal ds "daylight_duration" i)]),
    ("uv_index_max", seriesVal ds "uv_index_max" i),
    ("precipitation_sum", seriesVal ds "precipitation_sum" i)]

theorem dayEntry_eval {ds : List (String × JSON)} {ts : List JSON} {i : Nat}
    (hOK : sectionOK (.obj ds) dailyKeys = true) (hi : i < ts.length) :
    dayEntry (.obj ds) (.arr ts) i = .ok (dayRecord ds ts i) := by
  have hsplit : optArr (alookup "time" ds) = true ∧
      optArr (alookup "temperature_2m_max" ds) = true ∧
      optArr (alookup "temperature_2m_min" ds) = true ∧
      optArr (alookup "sunrise" ds) = true ∧ optArr (alookup "sunset" ds) = true ∧
      optArr (alookup "daylight_duration" ds) = true ∧
      optArr (alookup "uv_index_max" ds) = true ∧
      optArr (alookup "precipitation_sum" ds) = true := by
    simpa [sectionOK, dailyKeys, List.all, Bool.and_eq_true, and_assoc] using hOK
  obtain ⟨h0, h1, h2, h3, h4, h5, h6, h7⟩ := hsplit
  have ht : JSON.getItemNat (.arr ts) i = .ok ((ts.get? i).getD .null) := by
    simp [JSON.getItemNat, List.get?_eq_getElem?, List.getElem?_eq_getElem hi]
  simp only [dayEntry, ht, exbind_okl,
    pyFieldAt_eval ds "temperature_2m_max" i h1, pyFieldAt_eval ds "temperature_2m_min" i h2,
    pyFieldAt_eval ds "sunrise" i h3, pyFieldAt_eval ds "sunset" i h4,
    pyFieldAt_eval ds "daylight_duration" i h5, pyFieldAt_eval ds "uv_index_max" i h6,
    pyFieldAt_eval ds "precipitation_sum" i h7]
  rfl

theorem buildDailyAux_ok {ds : List (String × JSON)} {ts : List JSON}
    (hOK : sectionOK (.obj ds) dailyKeys = true) :
    ∀ (fuel i : Nat), i + fuel ≤ ts.length →
      ∃ l, buildDailyAux (.obj ds) (.arr ts) fuel i = .ok l := by
  intro fuel
  induction fuel with
  | zero => intro i h; exact ⟨[], rfl⟩
  | succ f2 ih =>
    intro i h
    have hi : i < ts.length := by omega
    obtain ⟨l2, hl2⟩ := ih (i + 1) (by omega)
    refine ⟨dayRecord ds ts i :: l2, ?_⟩
    simp only [buildDailyAux, dayEntry_eval hOK hi, exbind_okl, hl2]
    rfl

theorem buildDaily_ok {ds : List (String × JSON)} {ts : List JSON}
    (hOK : sectionOK (.obj ds) dailyKeys = true) :
    ∃ l, buildDaily (.obj ds) (.arr ts) = .ok l := by
  simp only [buildDaily, pyLen, exbind_okl]
  exact buildDailyAux_ok hOK ts.length 0 (by omega)

theorem frontendOK_split {fs : List (String × JSON)} (h : frontendOK (.obj fs) = true) :
    optObj (alookup "current" fs) = true ∧ optObj (alookup "current_units" fs) = true ∧
    (match alookup "hourly" fs with
     | none => true
     | some h2 => sectionOK h2 hourlyKeys) = true ∧
    (match alookup "daily" fs with
     | none => true
     | some d => d.isFalsy || sectionOK d dailyKeys) = true := by
  simpa [frontendOK, Bool.and_eq_true, and_assoc] using h

theorem sectionOK_emptyHourly : sectionOK (.obj []) hourlyKeys = true := rfl

theorem frontendCore_eval {fs : List (String × JSON)} (hOK : frontendOK (.obj fs) = true) :
    ∃ dfo, frontendCore (.obj fs) = .ok (currentWeather fs, .arr (hourlyOut fs), dfo) := by
  obtain ⟨h1, h2, h3, h4⟩ := frontendOK_split hOK
  have hhourly : ∃ hs : List (String × JSON),
      JSON.get (.obj fs) "hourly" (.obj []) = .ok (.obj hs) ∧
      hourlySection fs = hs ∧ sectionOK (.obj hs) hourlyKeys = true := by
    cases hh : alookup "hourly" fs with
    | none => exact ⟨[], by simp [JSON.get, hh], by simp [hourlySection, hh], rfl⟩
    | some v =>
      rw [hh] at h3
      cases v with
      | obj hs => exact ⟨hs, by simp [JSON.get, hh], by simp [hourlySection, hh], h3⟩
      | null => exact nomatch h3
      | bool b2 => exact nomatch h3
      | num q => exact nomatch h3
      | str s => exact nomatch h3
      | arr xs => exact nomatch h3
  obtain ⟨hs, hget, hsec, hsOK⟩ := hhourly
  have htime : ∃ ts : List JSON,
      JSON.get (.obj hs) "time" (.arr []) = .ok (.arr ts) ∧ hourlyTimes fs = ts := by
    have hta : optArr (alookup "time" hs) = true := (sectionOK_split hsOK).1
    cases htl : alookup "time" hs with
    | none =>
      exact ⟨[], by simp [JSON.get, htl], by simp [hourlyTimes, hsec, htl]⟩
    | some v =>
      cases v with
      | arr ts => exact ⟨ts, by simp [JSON.get, htl], by simp [hourlyTimes, hsec, htl]⟩
      | null => rw [htl] at hta; exact nomatch hta
      | bool b2 => rw [htl] at hta; exact nomatch hta
      | num q => rw [htl] at hta; exact nomatch hta
      | str s => rw [htl] at hta; exact nomatch hta
      | obj o => rw [htl] at hta; exact nomatch hta
  obtain ⟨ts, htget, hts⟩ := htime
  have hout : JSON.arr (hourlyOut fs) = .arr (hourRecords hs ts ts.length 0) := by
    rw [hourlyOut, hsec, hts]
  cases hd : alookup "daily" fs with
  | none =>
    refine ⟨none, ?_⟩
    simp only [frontendCore, buildCurrent_eval h1 h2, exbind_okl, hget, htget,
      buildHourly_eval hsOK, hout]
    rw [show JSON.get (.obj fs) "daily" (.obj []) = .ok (.obj []) from by simp [JSON.get, hd]]
    rw [exbind_okl, if_pos (by rfl)]
    rfl
  | some d =>
    rw [hd] at h4
    have hgetd : JSON.get (.obj fs) "daily" (.obj []) = .ok d := by simp [JSON.get, hd]
    by_cases hdf : d.isFalsy = true
    · refine ⟨none, ?_⟩
      simp only [frontendCore, buildCurrent_eval h1 h2, exbind_okl, hget, htget,
        buildHourly_eval hsOK, hout]
      rw [hgetd, exbind_okl, if_pos hdf]
      rfl
    · have hsecd : sectionOK d dailyKeys = true := by
        cases hor : d.isFalsy with
        | true => exact absurd hor hdf
        | false => simpa [hor] using h4
      have hdobj : ∃ ds : List (String × JSON), d = .obj ds := by
        cases d with
        | obj ds => exact ⟨ds, rfl⟩
        | null => exact nomatch hsecd
        | bool b2 => exact nomatch hsecd
        | num q => exact nomatch hsecd
        | str s => exact nomatch hsecd
        | arr xs => exact nomatch hsecd
      obtain ⟨ds, rfl⟩ := hdobj
      have hdt : ∃ dts : List JSON,
          JSON.get (.obj ds) "time" (.arr []) = .ok (.arr dts) := by
        have hta : optArr (alookup "time" ds) = true := by
          have h5 := hsecd
          simp only [sectionOK, Bool.and_eq_true] at h5
          exact h5.1
        cases htl : alookup "time" ds with
        | none => exact ⟨[], by simp [JSON.get, htl]⟩
        | some v =>
          cases v with
          | arr dts => exact ⟨dts, by simp [JSON.get, htl]⟩
          | null => rw [htl] at hta; exact nomatch hta
          | bool b2 => rw [htl] at hta; exact nomatch hta
          | num q => rw [htl] at hta; exact nomatch hta
          | str s => rw [htl] at hta; exact nomatch hta
          | obj o => rw [htl] at hta; exact nomatch hta
      obtain ⟨dts, hdtget⟩ := hdt
      obtain ⟨pd, hpd⟩ := @buildDaily_ok ds dts hsecd
      refine ⟨some (.arr pd), ?_⟩
      simp only [frontendCore, buildCurrent_eval h1 h2, exbind_okl, hget, htget,
        buildHourly_eval hsOK, hout]
      rw [hgetd, exbind_okl, if_neg hdf, hdtget, exbind_okl, hpd, exbind_okl]
      rfl

theorem buildHourlyAux_length {hourly times : JSON} :
    ∀ (fuel i : Nat) (l : List JSON),
      buildHourlyAux hourly times fuel i = .ok l → l.length = fuel := by
  intro fuel
  induction fuel with
  | zero =>
    intro i l h
    cases h
    rfl
  | succ f2 ih =>
    intro i l h
    simp only [buildHourlyAux, exbind_ok, expure_ok] at h
    obtain ⟨e1, he, tl, htl, hl⟩ := h
    cases hl
    simp [ih _ _ htl]

theorem buildHourly_arr_length {H : JSON} {ts : List JSON} {l : List JSON}
    (h : buildHourly H (.arr ts) = .ok l) : l.length = ts.length := by
  simp only [buildHourly, pyLen, exbind_okl] at h
  exact buildHourlyAux_length ts.length 0 l h

theorem buildHourlyAux_mem {hourly times : JSON} :
    ∀ (fuel i : Nat) (l : List JSON), buildHourlyAux hourly times fuel i = .ok l →
      ∀ r ∈ l, ∃ j, hourEntry hourly times j = .ok r := by
  intro fuel
  induction fuel with
  | zero =>
    intro i l h r hr
    cases h
    exact absurd hr (by simp)
  | succ f2 ih =>
    intro i l h r hr
    simp only [buildHourlyAux, exbind_ok, expure_ok] at h
    obtain ⟨e1, he, tl, htl, hl⟩ := h
    cases hl
    rcases List.mem_cons.mp hr with h1 | h2
    · exact ⟨i, by rw [h1]; exact he⟩
    · exact ih _ _ htl r h2

theorem buildHourly_mem {H tJ : JSON} {l : List JSON} (h : buildHourly H tJ = .ok l) :
    ∀ r ∈ l, ∃ j, hourEntry H tJ j = .ok r := by
  simp only [buildHourly, exbind_ok] at h
  obtain ⟨n, hn, h2⟩ := h
  exact buildHourlyAux_mem n 0 l h2

theorem hourEntry_inv {hourly times : JSON} {i : Nat} {r : JSON}
    (h : hourEntry hourly times i = .ok r) :
    ∃ t v1 v2 v3 v4 w1 w2 w3, r = .obj [("time", t), ("temperature", v1), ("rain", v2),
      ("cloud_cover", v3), ("visibility", v4),
      ("wind", .obj [("speed", w1), ("direction", w2), ("gusts", w3)])] := by
  simp only [hourEntry, exbind_ok, expure_ok] at h
  obtain ⟨t, ht, v1, h1, v2, h2, v3, h3, v4, h4, w1, h5, w2, h6, w3, h7, hr⟩ := h
  exact ⟨t, v1, v2, v3, v4, w1, w2, w3, hr.symm⟩

theorem frontendCore_inv {data : JSON} {res : JSON × JSON × Option JSON}
    (h : frontendCore data = .ok res) :
    ∃ cw H tJ ph, buildCurrent data = .ok cw ∧
      data.get "hourly" (.obj []) = .ok H ∧ H.get "time" (.arr []) = .ok tJ ∧
      buildHourly H tJ = .ok ph ∧ res.1 = cw ∧ res.2.1 = .arr ph := by
  simp only [frontendCore, exbind_ok] at h
  obtain ⟨cw, hcw, H, hH, tJ, htJ, ph, hph, D, hD, hif⟩ := h
  by_cases hdf : D.isFalsy = true
  · rw [if_pos hdf, expure_ok] at hif
    exact ⟨cw, H, tJ, ph, hcw, hH, htJ, hph, by rw [← hif], by rw [← hif]⟩
  · rw [if_neg hdf] at hif
    simp only [exbind_ok, expure_ok] at hif
    obtain ⟨dtJ, hdtJ, pd, hpd, h5⟩ := hif
    exact ⟨cw, H, tJ, ph, hcw, hH, htJ, hph, by rw [← h5], by rw [← h5]⟩

theorem process_fe_ok_some {data : JSON} {now : String} {out : JSON}
    (h : process_data_for_frontend data now = .ok (some out)) :
    data.isFalsy = false ∧ ∃ cw hfl dfo, frontendCore data = .ok (cw, hfl, dfo) ∧
      out = .obj ([("location", .str "Kledering"), ("last_updated", .str now),
        ("current_weather", cw), ("hourly_forecast", hfl)] ++
        (match dfo with | some d => [("daily_forecast", d)] | none => [])) := by
  by_cases hf : data.isFalsy = true
  · rw [process_data_for_frontend, if_pos hf] at h
    injection h with h2
    exact nomatch h2
  · rw [process_data_for_frontend, if_neg hf] at h
    rw [exmap_ok] at h
    obtain ⟨⟨cw, hfl, dfo⟩, hg, hout⟩ := h
    injection hout with hout2
    exact ⟨isFalsy_eq_false hf, cw, hfl, dfo, hg, hout2.symm⟩

theorem process_fe_eval {fs : List (String × JSON)} (now : String)
    (hf : (JSON.obj fs).isFalsy = false) (hOK : frontendOK (.obj fs) = true) :
    ∃ out, process_data_for_frontend (.obj fs) now = .ok (some out) ∧
      lookupKey out "current_weather" = some (currentWeather fs) ∧
      lookupKey out "hourly_forecast" = some (.arr (hourlyOut fs)) := by
  obtain ⟨dfo, hcore⟩ := frontendCore_eval hOK
  refine ⟨.obj ([("location", .str "Kledering"), ("last_updated", .str now),
    ("current_weather", currentWeather fs), ("hourly_forecast", .arr (hourlyOut fs))] ++
    (match dfo with | some d => [("daily_forecast", d)] | none => [])), ?_, ?_, ?_⟩
  · rw [process_data_for_frontend, if_neg (by simp [hf])]
    simp only [hcore, exmap_okl]
    cases dfo <;> rfl
  · cases dfo <;> rfl
  · cases dfo <;> rfl

theorem paramSeries_none (pf : List (String × JSON)) (c : String)
    (habs : alookup c pf = none) : paramSeries (.obj pf) c = .ok (.arr []) := by
  have he : entryOK (alookup c pf) = true := by rw [habs]; rfl
  rw [paramSeries_eval pf c he, entryData_none habs]

theorem paramUnit_none (pf : List (String × JSON)) (c d : String)
    (habs : alookup c pf = none) : paramUnit (.obj pf) c d = .ok (.str d) := by
  have he : entryOK (alookup c pf) = true := by rw [habs]; rfl
  rw [paramUnit_eval pf c d he, unitVal_none habs]

theorem entriesObjOK_split {pf : List (String × JSON)} (h : entriesObjOK (.obj pf) = true) :
    optObj (alookup "t2m" pf) = true ∧ optObj (alookup "rr" pf) = true ∧
    optObj (alookup "td" pf) = true ∧ optObj (alookup "dd" pf) = true ∧
    optObj (alookup "ff" pf) = true ∧ optObj (alookup "fx" pf) = true := by
  simpa [entriesObjOK, geoFields, List.all, Bool.and_eq_true, and_assoc] using h

/-! ## Claim C8: the concrete scenario of the spec -/

/-- The concrete scenario payload: three timestamps, a temperature series of
length 2 with unit °C, a wind-speed series of length 3 with unit m s-1. -/
def dataC8 : JSON := .obj [
  ("timestamps", .arr [.str "T0", .str "T1", .str "T2"]),
  ("features", .arr [.obj [("properties", .obj [("parameters", .obj [
    ("t2m", .obj [("data", .arr [.num 10, .num (23 / 2)]), ("unit", .str "°C")]),
    ("ff", .obj [("data", .arr [.num 2, .num 3, .num 4]), ("unit", .str "m s-1")])])])]])]

/-- C8: on timestamps [T0, T1, T2] with temperature values [10.0, 11.5]
(unit °C) and wind_speed values [2.0, 3.0, 4.0] (unit m s-1), alignment
produces exactly three records carrying temperature 10.0/11.5/null and
wind_speed 2.0/3.0/4.0 (the four untracked fields are null throughout), and
the units map temperature to °C and wind_speed to m s-1 (the other four
fields carry their defaults). -/
theorem C8_concrete_scenario :
    process_geosphere_data dataC8 "NOW" = .ok (some (.obj [
      ("location", .str "Kledering"), ("last_updated", .str "NOW"),
      ("source", .str "Geosphere"), ("forecast_type", .str "nowcast"),
      ("forecast_period", .str "3 hour"), ("resolution", .str "15 minute"),
      ("forecast_data", .arr [
        .obj [("time", .str "T0"), ("temperature", .num 10), ("precipitation", .null),
          ("dew_point", .null), ("wind_direction", .null), ("wind_speed", .num 2),
          ("wind_gust", .null)],
        .obj [("time", .str "T1"), ("temperature", .num (23 / 2)), ("precipitation", .null),
          ("dew_point", .null), ("wind_direction", .null), ("wind_speed", .num 3),
          ("wind_gust", .null)],
        .obj [("time", .str "T2"), ("temperature", .null), ("precipitation", .null),
          ("dew_point", .null), ("wind_direction", .null), ("wind_speed", .num 4),
          ("wind_gust", .null)]]),
      ("units", .obj [("temperature", .str "°C"), ("precipitation", .str "kg m-2"),
        ("dew_point", .str "°C"), ("wind_direction", .str "m s-1"),
        ("wind_speed", .str "m s-1"), ("wind_gust", .str "m s-1")])])) := rfl

/-! ## Claim C9: falsy payloads yield None -/

/-- C9: a falsy input payload (None, or an empty dict, list, string, zero or
False) makes both processing functions return None rather than an empty
dataset. -/
theorem C9_falsy_returns_none (data : JSON) (now : String) (hf : data.isFalsy = true) :
    process_geosphere_data data now = .ok none ∧
    process_data_for_frontend data now = .ok none := by
  rw [process_geosphere_data, if_pos hf, process_data_for_frontend, if_pos hf]
  exact ⟨rfl, rfl⟩

/-- C9 witness: the empty dict is falsy and both functions return None on
it. -/
theorem C9_falsy_returns_none_witness :
    (JSON.obj []).isFalsy = true ∧
    process_geosphere_data (.obj []) "NOW" = .ok none ∧
    process_data_for_frontend (.obj []) "NOW" = .ok none :=
  ⟨rfl, (C9_falsy_returns_none (.obj []) "NOW" rfl).1,
    (C9_falsy_returns_none (.obj []) "NOW" rfl).2⟩

/-! ## Claim C3: idempotence -/

/-- A small truthy payload used to refute strict output equality between two
calls. -/
def dataC3 : JSON := .obj [("timestamps", .arr [.str "T0"])]

/-- C3 counterexample: the functions embed the clock reading in the
`last_updated` field, so two calls on the identical truthy payload at
different clock readings produce different outputs. -/
theorem C3_idempotence_cex :
    dataC3.isFalsy = false ∧
    process_geosphere_data dataC3 "2025-05-01T10:00:00+02:00" ≠
      process_geosphere_data dataC3 "2025-05-01T10:15:00+02:00" ∧
    process_data_for_frontend dataC3 "2025-05-01T10:00:00+02:00" ≠
      process_data_for_frontend dataC3 "2025-05-01T10:15:00+02:00" := by
  refine ⟨rfl, ?_, ?_⟩
  · intro h
    have h1 : outKey (process_geosphere_data dataC3 "2025-05-01T10:00:00+02:00")
        "last_updated" = some (.str "2025-05-01T10:00:00+02:00") := rfl
    have h2 : outKey (process_geosphere_data dataC3 "2025-05-01T10:15:00+02:00")
        "last_updated" = some (.str "2025-05-01T10:15:00+02:00") := rfl
    rw [h, h2] at h1
    injection h1 with h3
    injection h3 with h4
    exact absurd h4 (by decide)
  · intro h
    have h1 : outKey (process_data_for_frontend dataC3 "2025-05-01T10:00:00+02:00")
        "last_updated" = some (.str "2025-05-01T10:00:00+02:00") := rfl
    have h2 : outKey (process_data_for_frontend dataC3 "2025-05-01T10:15:00+02:00")
        "last_updated" = some (.str "2025-05-01T10:15:00+02:00") := rfl
    rw [h, h2] at h1
    injection h1 with h3
    injection h3 with h4
    exact absurd h4 (by decide)

/-- C3 amended: apart from the `last_updated` field, the output of each
processing function is entirely determined by the payload: stripping
`last_updated` makes two calls on the same payload at different clock
readings structurally identical (and the result is deterministic for a
fixed clock reading). -/
theorem C3_idempotence_amended (data : JSON) (now1 now2 : String) :
    stripLastUpdated (process_geosphere_data data now1) =
      stripLastUpdated (process_geosphere_data data now2) ∧
    stripLastUpdated (process_data_for_frontend data now1) =
      stripLastUpdated (process_data_for_frontend data now2) := by
  constructor
  · by_cases hf : data.isFalsy = true
    · rw [process_geosphere_data, process_geosphere_data, if_pos hf, if_pos hf]
    · rw [process_geosphere_data, process_geosphere_data, if_neg hf, if_neg hf]
      cases hg : geoCore data with
      | error err => rfl
      | ok r => rfl
  · by_cases hf : data.isFalsy = true
    · rw [process_data_for_frontend, process_data_for_frontend, if_pos hf, if_pos hf]
    · rw [process_data_for_frontend, process_data_for_frontend, if_neg hf, if_neg hf]
      cases hg : frontendCore data with
      | error err => rfl
      | ok r =>
        obtain ⟨cw, hfl, dfo⟩ := r
        cases dfo <;> rfl

/-! ## Claim C4: output shape -/

/-- A small truthy Open-Meteo payload whose processed output demonstrates
the actual frontend shape. -/
def dataC4 : JSON := .obj [("hourly", .obj [("time", .arr [.str "H0"])])]

/-- C4 counterexample: the output of `process_data_for_frontend` on a truthy
payload has a `location` key but no `source`, no `forecast_data` and no
`units` key, contradicting the claimed common shape. -/
theorem C4_output_shape_cex :
    outHasKey (process_data_for_frontend dataC4 "NOW") "location" = true ∧
    outHasKey (process_data_for_frontend dataC4 "NOW") "source" = false ∧
    outHasKey (process_data_for_frontend dataC4 "NOW") "forecast_data" = false ∧
    outHasKey (process_data_for_frontend dataC4 "NOW") "units" = false :=
  ⟨rfl, rfl, rfl, rfl⟩

/-- C4 amended: the claimed shape (location, last_updated, source,
forecast_data with per-timestamp records carrying time plus one key per
tracked field, sibling units object with one key per tracked field) holds
for every successful `process_geosphere_data` output; the output of
`process_data_for_frontend` instead has the keys location, last_updated,
current_weather and hourly_forecast (plus daily_forecast when the daily
section is truthy), with per-timestamp records nesting the wind fields and
with units embedded per quantity rather than in a sibling units object. -/
theorem C4_output_shape_amended :
    (∀ (data : JSON) (now : String) (out : JSON),
      process_geosphere_data data now = .ok (some out) →
      ∃ recs un,
        out = .obj [("location", .str "Kledering"), ("last_updated", .str now),
          ("source", .str "Geosphere"), ("forecast_type", .str "nowcast"),
          ("forecast_period", .str "3 hour"), ("resolution", .str "15 minute"),
          ("forecast_data", .arr recs), ("units", un)] ∧
        (∀ r ∈ recs, ∃ t v1 v2 v3 v4 v5 v6,
          r = .obj [("time", t), ("temperature", v1), ("precipitation", v2),
            ("dew_point", v3), ("wind_direction", v4), ("wind_speed", v5),
            ("wind_gust", v6)]) ∧
        ∃ u1 u2 u3 u4 u5 u6,
          un = .obj [("temperature", u1), ("precipitation", u2), ("dew_point", u3),
            ("wind_direction", u4), ("wind_speed", u5), ("wind_gust", u6)]) ∧
    (∀ (data : JSON) (now : String) (out : JSON),
      process_data_for_frontend data now = .ok (some out) →
      ∃ cw recs rest,
        out = .obj ([("location", .str "Kledering"), ("last_updated", .str now),
          ("current_weather", cw), ("hourly_forecast", .arr recs)] ++ rest) ∧
        (rest = [] ∨ ∃ d, rest = [("daily_forecast", d)]) ∧
        ∀ r ∈ recs, ∃ t v1 v2 v3 v4 w1 w2 w3,
          r = .obj [("time", t), ("temperature", v1), ("rain", v2), ("cloud_cover", v3),
            ("visibility", v4),
            ("wind", .obj [("speed", w1), ("direction", w2), ("gusts", w3)])]) := by
  constructor
  · intro data now out h
    obtain ⟨hf, fd, un, hg, hout⟩ := process_geo_ok_some h
    obtain ⟨tsJ, s1, s2, s3, s4, s5, s6, tsl, l, u1, u2, u3, u4, u5, u6,
      hts, h1, h2, h3, h4, h5, h6, hit, hl, hu1, hu2, hu3, hu4, hu5, hu6, hfd, hun⟩ :=
      geoCore_inv hg
    subst hfd
    subst hun
    subst hout
    refine ⟨l, _, rfl, ?_, u1, u2, u3, u4, u5, u6, rfl⟩
    intro r hr
    obtain ⟨t, j, hmk⟩ := buildEntries_mem tsl 0 l hl r hr
    obtain ⟨v1, v2, v3, v4, v5, v6, g1, g2, g3, g4, g5, g6, hrEq⟩ := mkEntry_inv hmk
    exact ⟨t, v1, v2, v3, v4, v5, v6, hrEq⟩
  · intro data now out h
    obtain ⟨hf, cw, hfl, dfo, hg, hout⟩ := process_fe_ok_some h
    obtain ⟨cw2, H2, tJ, ph, hcw, hH2, htJ, hph, hr1, hr2⟩ := frontendCore_inv hg
    have hfl2 : hfl = .arr ph := hr2
    subst hfl2
    subst hout
    refine ⟨cw, ph, _, rfl, ?_, ?_⟩
    · cases dfo with
      | none => exact Or.inl rfl
      | some d => exact Or.inr ⟨d, rfl⟩
    · intro r hr
      obtain ⟨j, hj⟩ := buildHourly_mem hph r hr
      obtain ⟨t, v1, v2, v3, v4, w1, w2, w3, hrEq⟩ := hourEntry_inv hj
      exact ⟨t, v1, v2, v3, v4, w1, w2, w3, hrEq⟩

/-- Concrete inputs for the C4 amended witness. -/
def dataC4g : JSON := .obj [("timestamps", .arr [.str "T0"])]

/-- C4 amended witness: both halves applied at concrete truthy payloads. -/
theorem C4_output_shape_amended_witness :
    process_geosphere_data dataC4g "NOW" = .ok (some (.obj [
      ("location", .str "Kledering"), ("last_updated", .str "NOW"),
      ("source", .str "Geosphere"), ("forecast_type", .str "nowcast"),
      ("forecast_period", .str "3 hour"), ("resolution", .str "15 minute"),
      ("forecast_data", .arr [.obj [("time", .str "T0"), ("temperature", .null),
        ("precipitation", .null), ("dew_point", .null), ("wind_direction", .null),
        ("wind_speed", .null), ("wind_gust", .null)]]),
      ("units", geoDefaultUnits)])) ∧
    (∃ recs un,
      JSON.obj [("location", .str "Kledering"), ("last_updated", .str "NOW"),
        ("source", .str "Geosphere"), ("forecast_type", .str "nowcast"),
        ("forecast_period", .str "3 hour"), ("resolution", .str "15 minute"),
        ("forecast_data", .arr [.obj [("time", .str "T0"), ("temperature", .null),
          ("precipitation", .null), ("dew_point", .null), ("wind_direction", .null),
          ("wind_speed", .null), ("wind_gust", .null)]]),
        ("units", geoDefaultUnits)] =
        .obj [("location", .str "Kledering"), ("last_updated", .str "NOW"),
          ("source", .str "Geosphere"), ("forecast_type", .str "nowcast"),
          ("forecast_period", .str "3 hour"), ("resolution", .str "15 minute"),
          ("forecast_data", .arr recs), ("units", un)] ∧
      (∀ r ∈ recs, ∃ t v1 v2 v3 v4 v5 v6,
        r = .obj [("time", t), ("temperature", v1), ("precipitation", v2),
          ("dew_point", v3), ("wind_direction", v4), ("wind_speed", v5),
          ("wind_gust", v6)]) ∧
      ∃ u1 u2 u3 u4 u5 u6,
        un = .obj [("temperature", u1), ("precipitation", u2), ("dew_point", u3),
          ("wind_direction", u4), ("wind_speed", u5), ("wind_gust", u6)]) :=
  ⟨rfl, C4_output_shape_amended.1 dataC4g "NOW" _ rfl⟩

/-! ## Claim C6: empty timestamps -/

/-- A payload with an empty timestamp list whose parameters node is a
number: the parameters assignment succeeds, but `parameters.get` then
raises an uncaught AttributeError even though the timestamp list is
empty. -/
def dataC6 : JSON := .obj [("timestamps", .arr []),
  ("features", .arr [.obj [("properties", .obj [("parameters", .num 0)])]])]

/-- C6 counterexample: a truthy payload with an empty timestamp list on
which `process_geosphere_data` raises AttributeError instead of returning
an empty record sequence. -/
theorem C6_empty_timestamps_cex :
    dataC6.isFalsy = false ∧
    JSON.get dataC6 "timestamps" (.arr []) = .ok (.arr []) ∧
    process_geosphere_data dataC6 "NOW" = .error .attributeError :=
  ⟨rfl, rfl, rfl⟩

/-- C6 amended: for a truthy payload with an empty timestamp list,
alignment returns an empty record sequence with no error, provided each of
the six tracked entries of the (possibly degraded) parameters dict is a
dict when present; a non-dict parameters node or entry instead raises an
uncaught AttributeError. -/
theorem C6_empty_timestamps_amended (data : JSON) (now : String) (pf : List (String × JSON))
    (hf : data.isFalsy = false)
    (hts : data.get "timestamps" (.arr []) = .ok (.arr []))
    (hP : extractParameters data = .obj pf)
    (hE : entriesObjOK (.obj pf) = true) :
    ∃ out, process_geosphere_data data now = .ok (some out) ∧
      lookupKey out "forecast_data" = some (.arr []) := by
  obtain ⟨o1, o2, o3, o4, o5, o6⟩ := entriesObjOK_split hE
  obtain ⟨v1, hv1⟩ := paramSeries_objOK pf "t2m" o1
  obtain ⟨v2, hv2⟩ := paramSeries_objOK pf "rr" o2
  obtain ⟨v3, hv3⟩ := paramSeries_objOK pf "td" o3
  obtain ⟨v4, hv4⟩ := paramSeries_objOK pf "dd" o4
  obtain ⟨v5, hv5⟩ := paramSeries_objOK pf "ff" o5
  obtain ⟨v6, hv6⟩ := paramSeries_objOK pf "fx" o6
  obtain ⟨w1, hw1⟩ := paramUnit_objOK pf "t2m" "°C" o1
  obtain ⟨w2, hw2⟩ := paramUnit_objOK pf "rr" "kg m-2" o2
  obtain ⟨w3, hw3⟩ := paramUnit_objOK pf "td" "°C" o3
  obtain ⟨w4, hw4⟩ := paramUnit_objOK pf "dd" "m s-1" o4
  obtain ⟨w5, hw5⟩ := paramUnit_objOK pf "ff" "m s-1" o5
  obtain ⟨w6, hw6⟩ := paramUnit_objOK pf "fx" "m s-1" o6
  have hcore : geoCore data = .ok (.arr [], .obj [("temperature", w1), ("precipitation", w2),
      ("dew_point", w3), ("wind_direction", w4), ("wind_speed", w5), ("wind_gust", w6)]) := by
    simp only [geoCore, hts, hP, exbind_okl, hv1, hv2, hv3, hv4, hv5, hv6,
      iterJSON, buildEntries, hw1, hw2, hw3, hw4, hw5, hw6]
    rfl
  exact ⟨_, process_geo_eval now hf hcore, rfl⟩

/-- Concrete input for the C6 amended witness: empty timestamps, no
features path at all (so the parameters dict degrades to empty). -/
def dataC6w : JSON := .obj [("timestamps", .arr [])]

/-- C6 amended witness. -/
theorem C6_empty_timestamps_amended_witness :
    dataC6w.isFalsy = false ∧ extractParameters dataC6w = .obj [] ∧
    ∃ out, process_geosphere_data dataC6w "NOW" = .ok (some out) ∧
      lookupKey out "forecast_data" = some (.arr []) :=
  ⟨rfl, rfl, C6_empty_timestamps_amended dataC6w "NOW" [] rfl rfl rfl rfl⟩

/-! ## Claim C7: absent hourly section -/

/-- A truthy payload without an hourly block whose current section is a
number: the current-weather extraction raises AttributeError before the
hourly section is ever reached. -/
def dataC7 : JSON := .obj [("current", .num 5)]

/-- C7 counterexample: a truthy payload with no hourly block at all on
which `process_data_for_frontend` raises AttributeError rather than
producing an empty hourly record sequence. -/
theorem C7_missing_hourly_cex :
    dataC7.isFalsy = false ∧
    lookupKey dataC7 "hourly" = none ∧
    process_data_for_frontend dataC7 "NOW" = .error .attributeError :=
  ⟨rfl, rfl, rfl⟩

/-- C7 amended: for a truthy, well-typed payload (current, current_units,
daily sections well typed), a completely absent hourly block yields an
empty hourly_forecast record sequence and no error; an ill-typed sibling
section can instead raise an uncaught AttributeError. -/
theorem C7_missing_hourly_amended (fs : List (String × JSON)) (now : String)
    (hf : (JSON.obj fs).isFalsy = false)
    (hOK : frontendOK (.obj fs) = true)
    (habs : alookup "hourly" fs = none) :
    ∃ out, process_data_for_frontend (.obj fs) now = .ok (some out) ∧
      lookupKey out "hourly_forecast" = some (.arr []) := by
  have hsec : hourlySection fs = [] := by simp [hourlySection, habs]
  have htimes : hourlyTimes fs = [] := by simp [hourlyTimes, hsec, alookup]
  have hempty : hourlyOut fs = [] := by rw [hourlyOut, hsec, htimes]; rfl
  obtain ⟨out, hp, hcw, hh⟩ := process_fe_eval now hf hOK
  exact ⟨out, hp, by rw [hh, hempty]⟩

/-- Concrete input for the C7 amended witness. -/
def dataC7w : JSON := .obj [("current", .obj [("temperature_2m", .num 7)])]

/-- C7 amended witness. -/
theorem C7_missing_hourly_amended_witness :
    (JSON.obj [("current", JSON.obj [("temperature_2m", JSON.num 7)])]).isFalsy = false ∧
    frontendOK (.obj [("current", JSON.obj [("temperature_2m", JSON.num 7)])]) = true ∧
    alookup "hourly" [("current", JSON.obj [("temperature_2m", JSON.num 7)])] = none ∧
    ∃ out, process_data_for_frontend
        (.obj [("current", JSON.obj [("temperature_2m", JSON.num 7)])]) "NOW" =
        .ok (some out) ∧
      lookupKey out "hourly_forecast" = some (.arr []) :=
  ⟨rfl, rfl, rfl, C7_missing_hourly_amended
    [("current", JSON.obj [("temperature_2m", JSON.num 7)])] "NOW" rfl rfl rfl⟩

/-! ## Claim C10: degraded features path -/

/-- A truthy payload whose features path resolves to a number: the
try/except does not fire (no KeyError, IndexError or TypeError is raised on
the path itself), and the subsequent `parameters.get` call raises an
uncaught AttributeError. -/
def dataC10 : JSON := .obj [("timestamps", .arr [.str "T0"]),
  ("features", .arr [.obj [("properties", .obj [("parameters", .num 5)])]])]

/-- C10 counterexample: a truthy dict payload on which
`process_geosphere_data` raises AttributeError, refuting the claim that no
truthy payload makes the function raise (and showing that a wrong-typed
parameters leaf does not degrade to an empty mapping). -/
theorem C10_guarded_cex :
    dataC10.isFalsy = false ∧
    process_geosphere_data dataC10 "NOW" = .error .attributeError :=
  ⟨rfl, rfl⟩

/-- C10 amended: when the features-path lookup itself fails (missing key,
empty features list, or non-subscriptable level, raising KeyError,
IndexError or TypeError), the parameters dict silently degrades to empty
and the function returns, without raising, one all-null record per
timestamp plus the full default-unit table.  A parameters node or entry
that is reached but is not a dict instead raises an uncaught
AttributeError, so the claim that no truthy payload makes the function
raise does not hold. -/
theorem C10_degraded_features_amended (data : JSON) (now : String) (ts : List JSON)
    (err : PyErr)
    (hf : data.isFalsy = false)
    (hts : data.get "timestamps" (.arr []) = .ok (.arr ts))
    (hfe : featuresPath data = .error err) :
    ∃ recs, process_geosphere_data data now = .ok (some (.obj [
        ("location", .str "Kledering"), ("last_updated", .str now),
        ("source", .str "Geosphere"), ("forecast_type", .str "nowcast"),
        ("forecast_period", .str "3 hour"), ("resolution", .str "15 minute"),
        ("forecast_data", .arr recs), ("units", geoDefaultUnits)])) ∧
      recs.length = ts.length ∧
      ∀ r ∈ recs, lookupKey r "temperature" = some JSON.null ∧
        lookupKey r "precipitation" = some JSON.null ∧
        lookupKey r "dew_point" = some JSON.null ∧
        lookupKey r "wind_direction" = some JSON.null ∧
        lookupKey r "wind_speed" = some JSON.null ∧
        lookupKey r "wind_gust" = some JSON.null := by
  have hP : extractParameters data = .obj [] := by rw [extractParameters, hfe]
  have hcore := geoCore_eval data ts [] hts hP rfl
  refine ⟨geoRecords [] [] [] [] [] [] ts 0, ?_, geoRecords_length [] [] [] [] [] [] ts 0, ?_⟩
  · exact process_geo_eval now hf hcore
  · intro r hr
    obtain ⟨t, j, hrEq⟩ := geoRecords_mem [] [] [] [] [] [] ts 0 r hr
    rw [hrEq]
    exact ⟨rfl, rfl, rfl, rfl, rfl, rfl⟩

/-- Concrete input for the C10 amended witness: the features key is absent
entirely, so the path lookup fails with KeyError. -/
def dataC10w : JSON := .obj [("timestamps", .arr [.str "X", .str "Y"])]

/-- C10 amended witness. -/
theorem C10_degraded_features_amended_witness :
    dataC10w.isFalsy = false ∧
    featuresPath dataC10w = .error .keyError ∧
    ∃ recs, process_geosphere_data dataC10w "NOW" = .ok (some (.obj [
        ("location", .str "Kledering"), ("last_updated", .str "NOW"),
        ("source", .str "Geosphere"), ("forecast_type", .str "nowcast"),
        ("forecast_period", .str "3 hour"), ("resolution", .str "15 minute"),
        ("forecast_data", .arr recs), ("units", geoDefaultUnits)])) ∧
      recs.length = [JSON.str "X", JSON.str "Y"].length ∧
      ∀ r ∈ recs, lookupKey r "temperature" = some JSON.null ∧
        lookupKey r "precipitation" = some JSON.null ∧
        lookupKey r "dew_point" = some JSON.null ∧
        lookupKey r "wind_direction" = some JSON.null ∧
        lookupKey r "wind_speed" = some JSON.null ∧
        lookupKey r "wind_gust" = some JSON.null :=
  ⟨rfl, rfl, C10_degraded_features_amended dataC10w "NOW" [.str "X", .str "Y"] .keyError
    rfl rfl rfl⟩

/-! ## Claim C1: record count equals timestamp count -/

/-- C1: whenever a processed output is produced, the record list has
exactly as many entries as the timestamp list of the payload (forecast_data
in process_geosphere_data, the hourly record list in
process_data_for_frontend), regardless of the lengths of the data
series. -/
theorem C1_record_count (dataG dataF : JSON) (nowG nowF : String) (outG outF : JSON)
    (tsG tsF : List JSON) (H : JSON)
    (hG : process_geosphere_data dataG nowG = .ok (some outG))
    (hGts : dataG.get "timestamps" (.arr []) = .ok (.arr tsG))
    (hF : process_data_for_frontend dataF nowF = .ok (some outF))
    (hFh : dataF.get "hourly" (.obj []) = .ok H)
    (hFt : H.get "time" (.arr []) = .ok (.arr tsF)) :
    (∃ recs, lookupKey outG "forecast_data" = some (.arr recs) ∧
      recs.length = tsG.length) ∧
    (∃ recs, lookupKey outF "hourly_forecast" = some (.arr recs) ∧
      recs.length = tsF.length) := by
  constructor
  · obtain ⟨hf, fd, un, hg, hout⟩ := process_geo_ok_some hG
    obtain ⟨tsJ, s1, s2, s3, s4, s5, s6, tsl, l, u1, u2, u3, u4, u5, u6,
      hts, h1, h2, h3, h4, h5, h6, hit, hl, hu1, hu2, hu3, hu4, hu5, hu6, hfd, hun⟩ :=
      geoCore_inv hg
    rw [hGts] at hts
    injection hts with hts2
    subst hts2
    simp only [iterJSON] at hit
    injection hit with hit2
    subst hit2
    subst hfd
    subst hout
    exact ⟨l, rfl, buildEntries_length tsG 0 l hl⟩
  · obtain ⟨hf2, cw, hfl, dfo, hg2, hout2⟩ := process_fe_ok_some hF
    obtain ⟨cw2, H2, tJ, ph, hcw, hH2, htJ, hph, hr1, hr2⟩ := frontendCore_inv hg2
    rw [hFh] at hH2
    injection hH2 with e1
    subst e1
    rw [hFt] at htJ
    injection htJ with e2
    subst e2
    have hfl2 : hfl = .arr ph := hr2
    subst hfl2
    subst hout2
    have hlen : ph.length = tsF.length := buildHourly_arr_length hph
    refine ⟨ph, ?_, hlen⟩
    cases dfo <;> rfl

/-- Concrete payload for the C1 witness: two timestamps, one data series of
length three (longer), the other five series absent (shorter). -/
def dataC1g : JSON := .obj [
  ("timestamps", .arr [.str "A", .str "B"]),
  ("features", .arr [.obj [("properties", .obj [("parameters", .obj [
    ("t2m", .obj [("data", .arr [.num 1, .num 2, .num 3])])])])]])]

/-- The processed output for `dataC1g`. -/
def outC1g : JSON := .obj [
  ("location", .str "Kledering"), ("last_updated", .str "NOW"),
  ("source", .str "Geosphere"), ("forecast_type", .str "nowcast"),
  ("forecast_period", .str "3 hour"), ("resolution", .str "15 minute"),
  ("forecast_data", .arr [
    .obj [("time", .str "A"), ("temperature", .num 1), ("precipitation", .null),
      ("dew_point", .null), ("wind_direction", .null), ("wind_speed", .null),
      ("wind_gust", .null)],
    .obj [("time", .str "B"), ("temperature", .num 2), ("precipitation", .null),
      ("dew_point", .null), ("wind_direction", .null), ("wind_speed", .null),
      ("wind_gust", .null)]]),
  ("units", geoDefaultUnits)]

/-- Concrete payload for the C1 witness, frontend side: three hourly
timestamps, one data series of length one. -/
def dataC1f : JSON := .obj [("hourly", .obj [
  ("time", .arr [.str "H0", .str "H1", .str "H2"]),
  ("rain", .arr [.num 1])])]

/-- The processed output for `dataC1f`. -/
def outC1f : JSON := .obj [
  ("location", .str "Kledering"), ("last_updated", .str "NOW"),
  ("current_weather", .obj [("time", .null),
    ("temperature", .obj [("value", .null), ("unit", .str "°C"), ("feels_like", .null)]),
    ("precipitation", .obj [("value", .null), ("unit", .str "mm")]),
    ("wind", .obj [("speed", .null), ("gusts", .null), ("direction", .null),
      ("unit", .str "km/h")]),
    ("cloud_cover", .obj [("value", .null), ("unit", .str "%")])]),
  ("hourly_forecast", .arr [
    .obj [("time", .str "H0"), ("temperature", .null), ("rain", .num 1),
      ("cloud_cover", .null), ("visibility", .null),
      ("wind", .obj [("speed", .null), ("direction", .null), ("gusts", .null)])],
    .obj [("time", .str "H1"), ("temperature", .null), ("rain", .null),
      ("cloud_cover", .null), ("visibility", .null),
      ("wind", .obj [("speed", .null), ("direction", .null), ("gusts", .null)])],
    .obj [("time", .str "H2"), ("temperature", .null), ("rain", .null),
      ("cloud_cover", .null), ("visibility", .null),
      ("wind", .obj [("speed", .null), ("direction", .null), ("gusts", .null)])]])]

/-- C1 witness: both halves instantiated at concrete payloads with data
series longer and shorter than the timestamp list. -/
theorem C1_record_count_witness :
    process_geosphere_data dataC1g "NOW" = .ok (some outC1g) ∧
    process_data_for_frontend dataC1f "NOW" = .ok (some outC1f) ∧
    (∃ recs, lookupKey outC1g "forecast_data" = some (.arr recs) ∧ recs.length = 2) ∧
    (∃ recs, lookupKey outC1f "hourly_forecast" = some (.arr recs) ∧ recs.length = 3) := by
  have h := C1_record_count dataC1g dataC1f "NOW" "NOW" outC1g outC1f
    [.str "A", .str "B"] [.str "H0", .str "H1", .str "H2"]
    (.obj [("time", .arr [.str "H0", .str "H1", .str "H2"]), ("rain", .arr [.num 1])])
    rfl rfl rfl rfl rfl
  exact ⟨rfl, rfl, h.1, h.2⟩

/-! ## Claim C5: absent field gives null column and default unit -/

/-- C5: for a tracked field whose parameter code is entirely absent from
the (possibly degraded) parameters dict, every produced record carries null
for that field, and the units dict carries the fixed documented default
unit for that field (temperature °C, precipitation kg m-2, dew point °C,
wind direction, speed and gust m s-1). -/
theorem C5_absent_field (data : JSON) (now : String) (out : JSON)
    (pf : List (String × JSON)) (code fname dunit : String)
    (hmem : (code, fname, dunit) ∈ geoFields)
    (h : process_geosphere_data data now = .ok (some out))
    (hP : extractParameters data = .obj pf)
    (habs : alookup code pf = none) :
    (∃ recs, lookupKey out "forecast_data" = some (.arr recs) ∧
      ∀ r ∈ recs, lookupKey r fname = some JSON.null) ∧
    (∃ un, lookupKey out "units" = some un ∧ lookupKey un fname = some (.str dunit)) := by
  obtain ⟨hf, fd, un, hg, hout⟩ := process_geo_ok_some h
  obtain ⟨tsJ, s1, s2, s3, s4, s5, s6, tsl, l, u1, u2, u3, u4, u5, u6,
    hts, h1, h2, h3, h4, h5, h6, hit, hl, hu1, hu2, hu3, hu4, hu5, hu6, hfd, hun⟩ :=
    geoCore_inv hg
  rw [hP] at h1 h2 h3 h4 h5 h6 hu1 hu2 hu3 hu4 hu5 hu6
  subst hfd
  subst hun
  subst hout
  simp only [geoFields, List.mem_cons, List.not_mem_nil, or_false, Prod.mk.injEq] at hmem
  rcases hmem with hm | hm | hm | hm | hm | hm <;>
    obtain ⟨rfl, rfl, rfl⟩ := hm
  · rw [paramSeries_none pf _ habs] at h1
    injection h1 with e1
    subst e1
    rw [paramUnit_none pf _ _ habs] at hu1
    injection hu1 with e2
    subst e2
    refine ⟨⟨l, rfl, ?_⟩, ⟨_, rfl, rfl⟩⟩
    intro r hr
    obtain ⟨t, j, hmk⟩ := buildEntries_mem tsl 0 l hl r hr
    obtain ⟨v1, v2, v3, v4, v5, v6, g1, g2, g3, g4, g5, g6, hrEq⟩ := mkEntry_inv hmk
    rw [guardedAt_nil] at g1
    injection g1 with e3
    subst e3
    rw [hrEq]
    rfl
  · rw [paramSeries_none pf _ habs] at h2
    injection h2 with e1
    subst e1
    rw [paramUnit_none pf _ _ habs] at hu2
    injection hu2 with e2
    subst e2
    refine ⟨⟨l, rfl, ?_⟩, ⟨_, rfl, rfl⟩⟩
    intro r hr
    obtain ⟨t, j, hmk⟩ := buildEntries_mem tsl 0 l hl r hr
    obtain ⟨v1, v2, v3, v4, v5, v6, g1, g2, g3, g4, g5, g6, hrEq⟩ := mkEntry_inv hmk
    rw [guardedAt_nil] at g2
    injection g2 with e3
    subst e3
    rw [hrEq]
    rfl
  · rw [paramSeries_none pf _ habs] at h3
    injection h3 with e1
    subst e1
    rw [paramUnit_none pf _ _ habs] at hu3
    injection hu3 with e2
    subst e2
    refine ⟨⟨l, rfl, ?_⟩, ⟨_, rfl, rfl⟩⟩
    intro r hr
    obtain ⟨t, j, hmk⟩ := buildEntries_mem tsl 0 l hl r hr
    obtain ⟨v1, v2, v3, v4, v5, v6, g1, g2, g3, g4, g5, g6, hrEq⟩ := mkEntry_inv hmk
    rw [guardedAt_nil] at g3
    injection g3 with e3
    subst e3
    rw [hrEq]
    rfl
  · rw [paramSeries_none pf _ habs] at h4
    injection h4 with e1
    subst e1
    rw [paramUnit_none pf _ _ habs] at hu4
    injection hu4 with e2
    subst e2
    refine ⟨⟨l, rfl, ?_⟩, ⟨_, rfl, rfl⟩⟩
    intro r hr
    obtain ⟨t, j, hmk⟩ := buildEntries_mem tsl 0 l hl r hr
    obtain ⟨v1, v2, v3, v4, v5, v6, g1, g2, g3, g4, g5, g6, hrEq⟩ := mkEntry_inv hmk
    rw [guardedAt_nil] at g4
    injection g4 with e3
    subst e3
    rw [hrEq]
    rfl
  · rw [paramSeries_none pf _ habs] at h5
    injection h5 with e1
    subst e1
    rw [paramUnit_none pf _ _ habs] at hu5
    injection hu5 with e2
    subst e2
    refine ⟨⟨l, rfl, ?_⟩, ⟨_, rfl, rfl⟩⟩
    intro r hr
    obtain ⟨t, j, hmk⟩ := buildEntries_mem tsl 0 l hl r hr
    obtain ⟨v1, v2, v3, v4, v5, v6, g1, g2, g3, g4, g5, g6, hrEq⟩ := mkEntry_inv hmk
    rw [guardedAt_nil] at g5
    injection g5 with e3
    subst e3
    rw [hrEq]
    rfl
  · rw [paramSeries_none pf _ habs] at h6
    injection h6 with e1
    subst e1
    rw [paramUnit_none pf _ _ habs] at hu6
    injection hu6 with e2
    subst e2
    refine ⟨⟨l, rfl, ?_⟩, ⟨_, rfl, rfl⟩⟩
    intro r hr
    obtain ⟨t, j, hmk⟩ := buildEntries_mem tsl 0 l hl r hr
    obtain ⟨v1, v2, v3, v4, v5, v6, g1, g2, g3, g4, g5, g6, hrEq⟩ := mkEntry_inv hmk
    rw [guardedAt_nil] at g6
    injection g6 with e3
    subst e3
    rw [hrEq]
    rfl

/-- Concrete payload for the C5 witness: the wind-speed code "ff" is absent
from the parameters dict. -/
def dataC5 : JSON := .obj [
  ("timestamps", .arr [.str "T0"]),
  ("features", .arr [.obj [("properties", .obj [("parameters", .obj [
    ("t2m", .obj [("data", .arr [.num 1])])])])]])]

/-- The processed output for `dataC5`. -/
def outC5 : JSON := .obj [
  ("location", .str "Kledering"), ("last_updated", .str "NOW"),
  ("source", .str "Geosphere"), ("forecast_type", .str "nowcast"),
  ("forecast_period", .str "3 hour"), ("resolution", .str "15 minute"),
  ("forecast_data", .arr [
    .obj [("time", .str "T0"), ("temperature", .num 1), ("precipitation", .null),
      ("dew_point", .null), ("wind_direction", .null), ("wind_speed", .null),
      ("wind_gust", .null)]]),
  ("units", geoDefaultUnits)]

/-- C5 witness: the absent field "ff"/wind_speed at a concrete payload. -/
theorem C5_absent_field_witness :
    (("ff", "wind_speed", "m s-1") ∈ geoFields) ∧
    process_geosphere_data dataC5 "NOW" = .ok (some outC5) ∧
    ((∃ recs, lookupKey outC5 "forecast_data" = some (.arr recs) ∧
      ∀ r ∈ recs, lookupKey r "wind_speed" = some JSON.null) ∧
    (∃ un, lookupKey outC5 "units" = some un ∧
      lookupKey un "wind_speed" = some (.str "m s-1"))) :=
  ⟨by decide, rfl,
    C5_absent_field dataC5 "NOW" outC5
      [("t2m", .obj [("data", .arr [.num 1])])] "ff" "wind_speed" "m s-1"
      (by decide) rfl rfl rfl⟩

/-! ## Claim C2: short data series give values then nulls -/

/-- C2: for a well-typed payload whose timestamp list has length N and a
tracked field present with a data list of length M < N, processing
succeeds (no error is raised), produces exactly N records (none dropped),
and the record at index i carries the value at position i of the data list
when i < M and null when i >= M; this holds for both
process_geosphere_data and process_data_for_frontend. -/
theorem C2_short_series (dataG : JSON) (nowG nowF : String) (tsG : List JSON)
    (pf : List (String × JSON)) (code fname dunit : String) (vs : List JSON)
    (fsF : List (String × JSON)) (hs : List (String × JSON)) (tsF : List JSON)
    (k : String) (ws : List JSON)
    (hGf : dataG.isFalsy = false)
    (hGts : dataG.get "timestamps" (.arr []) = .ok (.arr tsG))
    (hGP : extractParameters dataG = .obj pf)
    (hGok : paramsOK (.obj pf) = true)
    (hmem : (code, fname, dunit) ∈ geoFields)
    (hvs : paramSeries (.obj pf) code = .ok (.arr vs))
    (hlen : vs.length < tsG.length)
    (hFf : (JSON.obj fsF).isFalsy = false)
    (hFok : frontendOK (.obj fsF) = true)
    (hFh : alookup "hourly" fsF = some (.obj hs))
    (hFt : alookup "time" hs = some (.arr tsF))
    (hk : k ∈ hourlyKeys)
    (hws : alookup k hs = some (.arr ws))
    (hwlen : ws.length < tsF.length) :
    (∃ outG recs, process_geosphere_data dataG nowG = .ok (some outG) ∧
      lookupKey outG "forecast_data" = some (.arr recs) ∧ recs.length = tsG.length ∧
      ∀ i, i < tsG.length → ∃ r, recs.get? i = some r ∧
        lookupKey r fname = some ((vs.get? i).getD .null)) ∧
    (∃ outF recs, process_data_for_frontend (.obj fsF) nowF = .ok (some outF) ∧
      lookupKey outF "hourly_forecast" = some (.arr recs) ∧ recs.length = tsF.length ∧
      ∀ i, i < tsF.length → ∃ r, recs.get? i = some r ∧
        hourRecVal r k = some ((ws.get? i).getD .null)) := by
  constructor
  · have hcore := geoCore_eval dataG tsG pf hGts hGP hGok
    have hproc := process_geo_eval nowG hGf hcore
    refine ⟨_, _, hproc, rfl,
      geoRecords_length (entryData pf "t2m") (entryData pf "rr") (entryData pf "td")
        (entryData pf "dd") (entryData pf "ff") (entryData pf "fx") tsG 0, ?_⟩
    intro i hi
    have hget := geoRecords_get (entryData pf "t2m") (entryData pf "rr") (entryData pf "td")
      (entryData pf "dd") (entryData pf "ff") (entryData pf "fx") tsG 0 i hi
    rw [Nat.zero_add] at hget
    refine ⟨_, hget, ?_⟩
    simp only [geoFields, List.mem_cons, List.not_mem_nil, or_false, Prod.mk.injEq] at hmem
    rcases hmem with hm | hm | hm | hm | hm | hm <;>
      obtain ⟨rfl, rfl, rfl⟩ := hm
    · have hv : vs = entryData pf "t2m" := by
        have h9 := paramSeries_eval pf "t2m" (paramsOK_split hGok).1
        rw [hvs] at h9
        simpa using h9
      rw [hv]
      rfl
    · have hv : vs = entryData pf "rr" := by
        have h9 := paramSeries_eval pf "rr" (paramsOK_split hGok).2.1
        rw [hvs] at h9
        simpa using h9
      rw [hv]
      rfl
    · have hv : vs = entryData pf "td" := by
        have h9 := paramSeries_eval pf "td" (paramsOK_split hGok).2.2.1
        rw [hvs] at h9
        simpa using h9
      rw [hv]
      rfl
    · have hv : vs = entryData pf "dd" := by
        have h9 := paramSeries_eval pf "dd" (paramsOK_split hGok).2.2.2.1
        rw [hvs] at h9
        simpa using h9
      rw [hv]
      rfl
    · have hv : vs = entryData pf "ff" := by
        have h9 := paramSeries_eval pf "ff" (paramsOK_split hGok).2.2.2.2.1
        rw [hvs] at h9
        simpa using h9
      rw [hv]
      rfl
    · have hv : vs = entryData pf "fx" := by
        have h9 := paramSeries_eval pf "fx" (paramsOK_split hGok).2.2.2.2.2
        rw [hvs] at h9
        simpa using h9
      rw [hv]
      rfl
  · obtain ⟨outF, hp, hcw, hh⟩ := process_fe_eval nowF hFf hFok
    have hsec : hourlySection fsF = hs := by simp [hourlySection, hFh]
    have htimes : hourlyTimes fsF = tsF := by simp [hourlyTimes, hsec, hFt]
    have hout2 : hourlyOut fsF = hourRecords hs tsF tsF.length 0 := by
      rw [hourlyOut, hsec, htimes]
    refine ⟨outF, hourRecords hs tsF tsF.length 0, hp, by rw [hh, hout2],
      hourRecords_length hs tsF tsF.length 0, ?_⟩
    intro i hi
    have hget := hourRecords_get hs tsF tsF.length 0 i hi
    rw [Nat.zero_add] at hget
    refine ⟨_, hget, ?_⟩
    simp only [hourlyKeys, List.mem_cons, List.not_mem_nil, or_false] at hk
    rcases hk with rfl | rfl | rfl | rfl | rfl | rfl | rfl
    · have hv : hourRecVal (hourRecord hs tsF i) "temperature_2m" =
          some (seriesVal hs "temperature_2m" i) := rfl
      rw [hv]
      simp [seriesVal, hws]
    · have hv : hourRecVal (hourRecord hs tsF i) "rain" =
          some (seriesVal hs "rain" i) := rfl
      rw [hv]
      simp [seriesVal, hws]
    · have hv : hourRecVal (hourRecord hs tsF i) "cloud_cover" =
          some (seriesVal hs "cloud_cover" i) := rfl
      rw [hv]
      simp [seriesVal, hws]
    · have hv : hourRecVal (hourRecord hs tsF i) "visibility" =
          some (seriesVal hs "visibility" i) := rfl
      rw [hv]
      simp [seriesVal, hws]
    · have hv : hourRecVal (hourRecord hs tsF i) "wind_speed_10m" =
          some (seriesVal hs "wind_speed_10m" i) := rfl
      rw [hv]
      simp [seriesVal, hws]
    · have hv : hourRecVal (hourRecord hs tsF i) "wind_direction_10m" =
          some (seriesVal hs "wind_direction_10m" i) := rfl
      rw [hv]
      simp [seriesVal, hws]
    · have hv : hourRecVal (hourRecord hs tsF i) "wind_gusts_10m" =
          some (seriesVal hs "wind_gusts_10m" i) := rfl
      rw [hv]
      simp [seriesVal, hws]

/-- Concrete geosphere payload for the C2 witness: three timestamps, a
wind-speed series of length two. -/
def dataC2g : JSON := .obj [
  ("timestamps", .arr [.str "T0", .str "T1", .str "T2"]),
  ("features", .arr [.obj [("properties", .obj [("parameters", .obj [
    ("ff", .obj [("data", .arr [.num 5, .num 6])])])])]])]

/-- The fields of the concrete frontend payload for the C2 witness: two
hourly timestamps, a rain series of length one. -/
def fsC2f : List (String × JSON) :=
  [("hourly", .obj [("time", .arr [.str "H0", .str "H1"]), ("rain", .arr [.num 1])])]

/-- C2 witness: both halves applied at concrete payloads with a data series
shorter than the timestamp list. -/
theorem C2_short_series_witness :
    (("ff", "wind_speed", "m s-1") ∈ geoFields) ∧ ("rain" ∈ hourlyKeys) ∧
    (2 < 3 ∧ 1 < 2) ∧
    ((∃ outG recs, process_geosphere_data dataC2g "NOW" = .ok (some outG) ∧
      lookupKey outG "forecast_data" = some (.arr recs) ∧
      recs.length = [JSON.str "T0", JSON.str "T1", JSON.str "T2"].length ∧
      ∀ i, i < [JSON.str "T0", JSON.str "T1", JSON.str "T2"].length →
        ∃ r, recs.get? i = some r ∧
          lookupKey r "wind_speed" = some (([JSON.num 5, JSON.num 6].get? i).getD .null)) ∧
    (∃ outF recs, process_data_for_frontend (.obj fsC2f) "NOW" = .ok (some outF) ∧
      lookupKey outF "hourly_forecast" = some (.arr recs) ∧
      recs.length = [JSON.str "H0", JSON.str "H1"].length ∧
      ∀ i, i < [JSON.str "H0", JSON.str "H1"].length →
        ∃ r, recs.get? i = some r ∧
          hourRecVal r "rain" = some (([JSON.num 1].get? i).getD .null))) :=
  ⟨by decide, by decide, ⟨by decide, by decide⟩,
    C2_short_series dataC2g "NOW" "NOW"
      [.str "T0", .str "T1", .str "T2"]
      [("ff", .obj [("data", .arr [.num 5, .num 6])])]
      "ff" "wind_speed" "m s-1" [.num 5, .num 6]
      fsC2f
      [("time", .arr [.str "H0", .str "H1"]), ("rain", .arr [.num 1])]
      [.str "H0", .str "H1"] "rain" [.num 1]
      rfl rfl rfl rfl (by decide) rfl (by decide)
      rfl rfl rfl rfl (by decide) rfl (by decide)⟩
